import Mathlib

/-!
Verification of the vpntgbot backend (FastAPI + SQLAlchemy + WG-Easy client).

The development shallowly embeds the backend's data model and its HTTP
handlers as executable Lean functions:

* the relational state (users, plans, subscriptions, peers, payments) is a
  record of lists, translated from `backend/models.py`;
* handler bodies are translated from `backend/app_main.py` and
  `backend/payments_api.py` (time is passed explicitly as UTC seconds,
  `timedelta(days=d)` becomes `d * 86400`);
* the WG-Easy HTTP client (`WGEasyHTTP` in `backend/app_main.py`) is run
  against an oracle trace: a list of HTTP responses consumed one per
  request; the interpreter also records a log of (method, path) pairs, one
  entry per HTTP request that the client issues.
-/

namespace VpnTgBot

/-! ### Python string / truthiness helpers -/

/-- Python truthiness of an `Optional[str]`: `None` and `""` are falsy. -/
def optTruthy : Option String → Bool
  | none => false
  | some s => s ≠ ""

/-- Python `a or dflt` for `a : Optional[str]`. -/
def pyOr (a : Option String) (dflt : String) : String :=
  match a with
  | none => dflt
  | some s => if s = "" then dflt else s

/-- Python `s.rstrip("/")`. -/
def rstripSlashes (s : String) : String :=
  String.mk ((s.toList.reverse.dropWhile (fun c => c = '/')).reverse)

/-- Whether the character list starts with the pattern. -/
def startsWithChars : List Char → List Char → Bool
  | [], _ => true
  | _ :: _, [] => false
  | p :: ps, c :: cs => p = c && startsWithChars ps cs

/-- Substring search on character lists. -/
def hasSubChars (pat : List Char) : List Char → Bool
  | [] => startsWithChars pat []
  | c :: cs => startsWithChars pat (c :: cs) || hasSubChars pat cs

/-- Python `pat in s` (substring test). -/
def strContains (s pat : String) : Bool :=
  hasSubChars pat.toList s.toList

/-- Python `s.strip()`: drop leading and trailing whitespace. -/
def pyTrim (s : String) : String :=
  String.mk
    (((s.toList.dropWhile Char.isWhitespace).reverse.dropWhile
      Char.isWhitespace).reverse)

/-- Python `s.lower()` (ASCII case folding, as the code only compares
ASCII content types). -/
def pyLower (s : String) : String :=
  String.mk (s.toList.map Char.toLower)

/-- Python `s[:n]`. -/
def pyTake (s : String) (n : Nat) : String :=
  String.mk (s.toList.take n)

/-- Python `s.split(sep)` for a one-character separator. -/
def splitOnChar (sep : Char) : List Char → List (List Char)
  | [] => [[]]
  | c :: cs =>
      let r := splitOnChar sep cs
      if c = sep then [] :: r
      else
        match r with
        | [] => [[c]]
        | h :: t => (c :: h) :: t

/-! ### JSON values, as decoded by `aiohttp`'s `resp.json()` -/

/-- A JSON value. -/
inductive JVal where
  | jb (b : Bool)
  | js (s : String)
  | jn (n : Int)
  | jnull
  | jarr (xs : List JVal)
  | jobj (kvs : List (String × JVal))

/-- Python `dict.get k` on a JSON object (first binding wins). -/
def jlookup : List (String × JVal) → String → Option JVal
  | [], _ => none
  | (k, v) :: rest, key => if k = key then some v else jlookup rest key

/-- Python truthiness of a JSON value. -/
def jTruthy : JVal → Bool
  | JVal.jb b => b
  | JVal.js s => s ≠ ""
  | JVal.jn n => n ≠ 0
  | JVal.jnull => false
  | JVal.jarr xs => !xs.isEmpty
  | JVal.jobj kvs => !kvs.isEmpty

/-- Python `str(v)` on a JSON value (composite values abbreviated; the code
only ever applies it to strings). -/
def pyStr : JVal → String
  | JVal.jb true => "True"
  | JVal.jb false => "False"
  | JVal.js s => s
  | JVal.jn n => toString n
  | JVal.jnull => "None"
  | JVal.jarr _ => "<list>"
  | JVal.jobj _ => "<dict>"

/-- Python `str(c.get(k) or "")` on a JSON object. -/
def jGetStr (kvs : List (String × JVal)) (k : String) : String :=
  match jlookup kvs k with
  | some v => if jTruthy v then pyStr v else ""
  | none => ""

/-! ### WG-Easy HTTP interpreter

`WGEasyHTTP._request` (app_main.py:135-168) is run against an oracle trace:
each call consumes the next `HResp` and appends `(method, path)` to the
request log. An exhausted trace models a connection failure, which the
Python wrapper turns into a `RuntimeError` (the final `except Exception`
branch of `_request`). -/

/-- One oracle HTTP response: either a reply with a status, content type,
body text and decoded JSON body, or a transport failure. -/
inductive HResp where
  | http (status : Nat) (contentType : String) (bodyText : String) (bodyJson : JVal)
  | netFail (msg : String)

/-- Interpreter state: responses not yet consumed, and the request log. -/
structure WGState where
  remaining : List HResp
  log : List (String × String)

/-- Exceptions escaping `WGEasyHTTP` methods: `aiohttp.ClientResponseError`
(unexpected status) or `RuntimeError`. -/
inductive WGErr where
  | respError (status : Nat) (message : String)
  | runtimeError (msg : String)
deriving DecidableEq

/-- Client credentials (`WGEasyHTTP` dataclass fields, app_main.py:125-127). -/
structure WGCfg where
  base_url : String
  password : String
  timeout_sec : Rat := 15
deriving DecidableEq

/-- `WGEasyHTTP.base` (app_main.py:129-130). -/
def wgBase (cfg : WGCfg) : String :=
  rstripSlashes cfg.base_url

/-- `WGEasyHTTP._request` (app_main.py:135-168): one HTTP exchange. A
status other than `expected` raises `ClientResponseError` carrying the
first 1500 characters of the body; with `returnJson` and a JSON content
type the decoded body is returned, otherwise the body text. -/
def wgRequest (method path : String) (expected : Nat) (returnJson : Bool)
    (st : WGState) : Except WGErr JVal × WGState :=
  match st.remaining with
  | [] =>
      (Except.error (WGErr.runtimeError "WG-Easy request failed: connection error"),
       WGState.mk [] (st.log ++ [(method, path)]))
  | r :: rest =>
      let st2 : WGState := WGState.mk rest (st.log ++ [(method, path)])
      match r with
      | HResp.netFail msg => (Except.error (WGErr.runtimeError msg), st2)
      | HResp.http status ctype bodyText bodyJson =>
          if status ≠ expected then
            (Except.error (WGErr.respError status (pyTake bodyText 1500)), st2)
          else if returnJson && strContains (pyLower ctype) "application/json" then
            (Except.ok bodyJson, st2)
          else
            (Except.ok (JVal.js bodyText), st2)

/-- Python `data.get("success") is True` on a decoded JSON body. -/
def jSuccessIsTrue : JVal → Bool
  | JVal.jobj kvs =>
      match jlookup kvs "success" with
      | some (JVal.jb true) => true
      | _ => false
  | _ => false

/-- The post-request check of `WGEasyHTTP.login`: a non-dict body or a
`success` field other than `True` raises `RuntimeError`. -/
def loginCheck (msg : String) : Except WGErr JVal → Except WGErr Unit
  | Except.error e => Except.error e
  | Except.ok data =>
      if jSuccessIsTrue data then Except.ok ()
      else Except.error (WGErr.runtimeError msg)

/-- `WGEasyHTTP.login` (app_main.py:170-180): `POST /api/session`, then
require a JSON object whose `success` field is the boolean `true`. -/
def wgLogin (password : String) (st : WGState) : Except WGErr Unit × WGState :=
  let r := wgRequest "POST" "/api/session" 200 true st
  (loginCheck "WG-Easy login failed" r.1, r.2)

/-- The post-request check of `WGEasyHTTP.list_clients`: a non-list body
raises `RuntimeError`. -/
def listCheck : Except WGErr JVal → Except WGErr (List JVal)
  | Except.error e => Except.error e
  | Except.ok (JVal.jarr xs) => Except.ok xs
  | Except.ok _ => Except.error (WGErr.runtimeError "WG-Easy clients list unexpected")

/-- `WGEasyHTTP.list_clients` (app_main.py:194-204): `GET
/api/wireguard/client`, requiring a JSON list. -/
def wgListClients (st : WGState) : Except WGErr (List JVal) × WGState :=
  let r := wgRequest "GET" "/api/wireguard/client" 200 true st
  (listCheck r.1, r.2)

/-- `WGEasyHTTP.create_client` (app_main.py:206-216): `POST
/api/wireguard/client`, then require `success == true`. -/
def wgCreateClient (st : WGState) : Except WGErr Unit × WGState :=
  let r := wgRequest "POST" "/api/wireguard/client" 200 true st
  (loginCheck "WG-Easy create_client failed" r.1, r.2)

/-- The loop body of `find_client_id_by_name` (app_main.py:218-225): scan
the decoded client list for an entry whose `name` is `name` and whose
(stripped) `id` is nonempty. A non-object entry would make Python's
`c.get` raise an `AttributeError`. -/
def findClientIdInList : List JVal → String → Except WGErr (Option String)
  | [], _ => Except.ok none
  | c :: rest, name =>
      match c with
      | JVal.jobj kvs =>
          if jGetStr kvs "name" = name then
            let cid := pyTrim (jGetStr kvs "id")
            if cid ≠ "" then Except.ok (some cid) else findClientIdInList rest name
          else findClientIdInList rest name
      | _ => Except.error (WGErr.runtimeError "AttributeError: get")

/-- `WGEasyHTTP.find_client_id_by_name` (app_main.py:218-225). -/
def wgFindClientId (name : String) (st : WGState) :
    Except WGErr (Option String) × WGState :=
  let r := wgListClients st
  (match r.1 with
   | Except.error e => Except.error e
   | Except.ok clients => findClientIdInList clients name, r.2)

/-- `WGEasyHTTP.get_configuration` (app_main.py:227-235): `GET
/api/wireguard/client/{id}/configuration` as text, then `str(cfg or "")`. -/
def wgGetConfiguration (clientId : String) (st : WGState) :
    Except WGErr String × WGState :=
  let r := wgRequest "GET" ("/api/wireguard/client/" ++ clientId ++ "/configuration")
      200 false st
  (match r.1 with
   | Except.error e => Except.error e
   | Except.ok v => Except.ok (pyStr v), r.2)

/-- `WGEasyHTTP.delete_client` (app_main.py:237-252): `DELETE
/api/wireguard/client/{id}`; a `ClientResponseError` with status 204 or
404 counts as success, every other exception yields `false`. -/
def wgDeleteClient (clientId : String) (st : WGState) : Bool × WGState :=
  let r := wgRequest "DELETE" ("/api/wireguard/client/" ++ clientId) 200 true st
  (match r.1 with
   | Except.ok _ => true
   | Except.error (WGErr.respError s _) => if s = 204 ∨ s = 404 then true else false
   | Except.error (WGErr.runtimeError _) => false, r.2)

/-- Sequential composition with exception propagation (the Python control
flow of one `try` body: a raised step aborts the rest). -/
def andThen (r : Except WGErr α × WGState)
    (f : α → WGState → Except WGErr β × WGState) : Except WGErr β × WGState :=
  match r with
  | (Except.error e, st) => (Except.error e, st)
  | (Except.ok a, st) => f a st

/-- `WGEasyHTTP.create_and_get_config` (app_main.py:254-271): empty base
URL or password raise at once; otherwise login, create the client, look
its id up by name (missing id raises), fetch the configuration (an empty
configuration raises), and return the `(client id, config)` pair. -/
def createAndGetConfig (cfg : WGCfg) (clientName : String) (st : WGState) :
    Except WGErr (String × String) × WGState :=
  if wgBase cfg = "" then
    (Except.error (WGErr.runtimeError "WG_EASY_URL is empty"), st)
  else if cfg.password = "" then
    (Except.error (WGErr.runtimeError "WG_EASY_PASSWORD is empty"), st)
  else
    andThen (wgLogin cfg.password st) (fun _ st1 =>
      andThen (wgCreateClient st1) (fun _ st2 =>
        andThen (wgFindClientId clientName st2) (fun cidOpt st3 =>
          match cidOpt with
          | none =>
              (Except.error
                (WGErr.runtimeError "WG-Easy: client created but id not found"), st3)
          | some cid =>
              andThen (wgGetConfiguration cid st3) (fun cfgText st4 =>
                if pyTrim cfgText = "" then
                  (Except.error (WGErr.runtimeError "WG-Easy: empty configuration"), st4)
                else
                  (Except.ok (cid, cfgText), st4)))))

/-- `WGEasyHTTP.get_config` (app_main.py:273-276): login, then fetch a
configuration; login failures propagate. -/
def wgGetConfigRun (cfg : WGCfg) (clientId : String) (st : WGState) :
    Except WGErr String × WGState :=
  andThen (wgLogin cfg.password st) (fun _ st1 => wgGetConfiguration clientId st1)

/-- `WGEasyHTTP.delete` (app_main.py:278-281): login, then best-effort
client deletion; login failures propagate. -/
def wgDeleteRun (cfg : WGCfg) (clientId : String) (st : WGState) :
    Except WGErr Bool × WGState :=
  andThen (wgLogin cfg.password st) (fun _ st1 =>
    let r := wgDeleteClient clientId st1
    (Except.ok r.1, r.2))

/-! ### Basic interpreter lemmas -/

theorem wgRequest_log (method path : String) (expected : Nat) (returnJson : Bool)
    (st : WGState) :
    ((wgRequest method path expected returnJson st).2).log
      = st.log ++ [(method, path)] := by
  unfold wgRequest
  rcases st with ⟨rem, log⟩
  cases rem with
  | nil => rfl
  | cons r rest =>
    cases r with
    | netFail msg => rfl
    | http status ctype bodyText bodyJson =>
      by_cases h : status ≠ expected
      · simp [h]
      · simp [h]
        split <;> rfl

theorem wgLogin_state (password : String) (st : WGState) :
    (wgLogin password st).2 = (wgRequest "POST" "/api/session" 200 true st).2 := rfl

theorem wgLogin_log (password : String) (st : WGState) :
    (wgLogin password st).2.log = st.log ++ [("POST", "/api/session")] := by
  rw [wgLogin_state, wgRequest_log]

theorem wgCreateClient_log (st : WGState) :
    (wgCreateClient st).2.log = st.log ++ [("POST", "/api/wireguard/client")] := by
  show (wgRequest "POST" "/api/wireguard/client" 200 true st).2.log = _
  rw [wgRequest_log]

theorem wgFindClientId_log (name : String) (st : WGState) :
    (wgFindClientId name st).2.log = st.log ++ [("GET", "/api/wireguard/client")] := by
  show (wgRequest "GET" "/api/wireguard/client" 200 true st).2.log = _
  rw [wgRequest_log]

theorem wgGetConfiguration_log (clientId : String) (st : WGState) :
    (wgGetConfiguration clientId st).2.log
      = st.log ++ [("GET", "/api/wireguard/client/" ++ clientId ++ "/configuration")] := by
  show (wgRequest "GET" ("/api/wireguard/client/" ++ clientId ++ "/configuration")
      200 false st).2.log = _
  rw [wgRequest_log]

/-! ### Relational state (backend/models.py)

Rows are records; autoincrement ids come from a single sequence counter in
`DB.seq`. Timestamps are UTC seconds (`Int`); `Numeric` money columns are
integers counted in 10^-4-star units, so that the 0.0001-star tolerance
of the amount check is exactly one unit. -/

/-- A `users` row (models.py:140-193). -/
structure User where
  id : Nat
  telegram_id : Int
  username : Option String
  first_name : Option String
  last_name : Option String
  language_code : Option String
  is_blocked : Bool := false
  is_admin : Bool := false
deriving DecidableEq

/-- A `subscription_plans` row (models.py:196-245). -/
structure SubscriptionPlan where
  id : Nat
  code : String
  name : String
  duration_days : Nat
  price_stars : Int
  is_trial : Bool
  is_active : Bool
  sort_order : Int
  max_devices : Option Nat
deriving DecidableEq

/-- A `subscriptions` row (models.py:248-307). -/
structure Subscription where
  id : Nat
  user_id : Nat
  plan_id : Nat
  server_id : Option Nat
  starts_at : Int
  ends_at : Int
  is_active : Bool
  is_trial : Bool
  source : String
deriving DecidableEq

/-- A `vpn_peers` row (models.py:375-411). -/
structure VpnPeer where
  id : Nat
  user_id : Nat
  wg_client_id : String
  client_name : String
  location_code : String
  location_name : String
  is_active : Bool
  created_at : Int
  revoked_at : Option Int
deriving DecidableEq

/-- A `payments` row (models.py:315-367). -/
structure Payment where
  id : Nat
  provider : String
  user_id : Nat
  telegram_id : Int
  plan_id : Option Nat
  subscription_id : Option Nat
  currency : String
  amount : Int
  invoice_payload : String
  telegram_payment_charge_id : String
  provider_payment_charge_id : Option String
  status : String
deriving DecidableEq

/-- The database state: one list per table, plus the id sequence. -/
structure DB where
  users : List User
  plans : List SubscriptionPlan
  subscriptions : List Subscription
  peers : List VpnPeer
  payments : List Payment
  seq : Nat
deriving DecidableEq

/-- `select(User).where(User.telegram_id == tid)` with
`scalar_one_or_none` (`telegram_id` is unique). -/
def findUserByTg (db : DB) (tid : Int) : Option User :=
  db.users.find? (fun u => decide (u.telegram_id = tid))

/-- `select(SubscriptionPlan).where(SubscriptionPlan.id == pid)`. -/
def findPlanById (plans : List SubscriptionPlan) (pid : Nat) : Option SubscriptionPlan :=
  plans.find? (fun p => decide (p.id = pid))

/-- `select(SubscriptionPlan).where(SubscriptionPlan.code == c)`. -/
def findPlanByCode (plans : List SubscriptionPlan) (c : String) : Option SubscriptionPlan :=
  plans.find? (fun p => decide (p.code = c))

/-- `select(Subscription).where(Subscription.id == sid)`. -/
def findSubById (subs : List Subscription) (sid : Nat) : Option Subscription :=
  subs.find? (fun s => decide (s.id = sid))

/-- The filter of `get_active_subscription` (app_main.py:471-485): the
user's rows with `is_active` and `ends_at >= now`. -/
def activeSubsOf (subs : List Subscription) (uid : Nat) (now : Int) : List Subscription :=
  subs.filter (fun s => decide (s.user_id = uid ∧ s.is_active = true ∧ now ≤ s.ends_at))

/-- One step of taking the first row with maximal `ends_at`. -/
def pickLater (acc : Option Subscription) (s : Subscription) : Option Subscription :=
  match acc with
  | none => some s
  | some t => if t.ends_at < s.ends_at then some s else acc

/-- `order_by(ends_at.desc())` + `.first()`: the first row with maximal
`ends_at` (`none` on an empty list). -/
def latestByEnds (l : List Subscription) : Option Subscription :=
  l.foldl pickLater none

/-- `get_active_subscription` (app_main.py:471-485). -/
def get_active_subscription (subs : List Subscription) (uid : Nat) (now : Int) :
    Option Subscription :=
  latestByEnds (activeSubsOf subs uid now)

/-- `has_had_trial` (app_main.py:488-501): the user has some subscription
joined to a plan with `is_trial`. -/
def has_had_trial (subs : List Subscription) (plans : List SubscriptionPlan)
    (uid : Nat) : Bool :=
  subs.any (fun s =>
    decide (s.user_id = uid) &&
      match findPlanById plans s.plan_id with
      | some p => p.is_trial
      | none => false)

/-- The field updates of `get_or_create_user` on an existing row
(app_main.py:438-456): each truthy payload field that differs is copied. -/
structure TelegramUserIn where
  telegram_id : Int
  username : Option String
  first_name : Option String
  last_name : Option String
  language_code : Option String
deriving DecidableEq

/-- One field update step: copy when the payload value is truthy and
differs from the stored one. -/
def updField (cur new : Option String) : Option String × Bool :=
  if optTruthy new ∧ cur ≠ new then (new, true) else (cur, false)

/-- The update loop body of `get_or_create_user` for a found user. -/
def updateUserFields (u : User) (p : TelegramUserIn) : User × Bool :=
  let r1 := updField u.username p.username
  let r2 := updField u.first_name p.first_name
  let r3 := updField u.last_name p.last_name
  let r4 := updField u.language_code p.language_code
  ({ u with username := r1.1, first_name := r2.1, last_name := r3.1,
            language_code := r4.1 },
   r1.2 || r2.2 || r3.2 || r4.2)

/-- `get_or_create_user` (app_main.py:435-468): update the existing row's
truthy-changed fields, or insert a fresh user. Returns (user, is_new, db). -/
def get_or_create_user (db : DB) (p : TelegramUserIn) : User × Bool × DB :=
  match findUserByTg db p.telegram_id with
  | some u =>
      let r := updateUserFields u p
      if r.2 then
        (r.1, false,
         { db with users := db.users.map (fun w => if w.id = u.id then r.1 else w) })
      else (u, false, db)
  | none =>
      let u : User :=
        { id := db.seq, telegram_id := p.telegram_id, username := p.username,
          first_name := p.first_name, last_name := p.last_name,
          language_code := p.language_code }
      (u, true, { db with users := db.users ++ [u], seq := db.seq + 1 })

/-! ### Handler results (FastAPI responses) -/

/-- A handler outcome: a typed response body, or an `HTTPException` with a
status code and detail string. -/
inductive HandlerResult (α : Type) where
  | ok (value : α)
  | httpError (status : Nat) (detail : String)
deriving DecidableEq

/-- `SubscriptionStatusResponse` (schemas; built in app_main.py:525-545). -/
structure SubscriptionStatusResponse where
  has_active_subscription : Bool
  is_trial_active : Bool
  active_plan_name : Option String
  subscription_ends_at : Option Int
  trial_available : Bool
deriving DecidableEq

/-- `build_subscription_status` (app_main.py:525-545). -/
def build_subscription_status (db : DB) (now : Int) (user : User) :
    SubscriptionStatusResponse :=
  let trial_used := has_had_trial db.subscriptions db.plans user.id
  match get_active_subscription db.subscriptions user.id now with
  | some active =>
      { has_active_subscription := true,
        is_trial_active := active.is_trial,
        active_plan_name :=
          match findPlanById db.plans active.plan_id with
          | some p => some p.name
          | none => none,
        subscription_ends_at := some active.ends_at,
        trial_available := !trial_used }
  | none =>
      { has_active_subscription := false, is_trial_active := false,
        active_plan_name := none, subscription_ends_at := none,
        trial_available := !trial_used }

/-- `GET /api/v1/users/{telegram_id}/subscription/active`
(app_main.py:725-737): 404 for an unknown user, otherwise the status. -/
def get_subscription_status (db : DB) (now : Int) (telegram_id : Int) :
    HandlerResult SubscriptionStatusResponse × DB :=
  match findUserByTg db telegram_id with
  | none => (HandlerResult.httpError 404 "user not found", db)
  | some user => (HandlerResult.ok (build_subscription_status db now user), db)

/-- `get_or_create_trial_plan` (app_main.py:504-522): return the plan with
code `trial_10`, creating it (10 days, 0 stars, trial, active) if absent. -/
def get_or_create_trial_plan (db : DB) : SubscriptionPlan × DB :=
  match findPlanByCode db.plans "trial_10" with
  | some plan => (plan, db)
  | none =>
      let plan : SubscriptionPlan :=
        { id := db.seq, code := "trial_10", name := "Free 10-day trial",
          duration_days := 10, price_stars := 0, is_trial := true,
          is_active := true, sort_order := 0, max_devices := none }
      (plan, { db with plans := db.plans ++ [plan], seq := db.seq + 1 })

/-- `TrialGrantResponse` (schemas.py; plan reported by id here). -/
structure TrialGrantResponse where
  success : Bool
  message : String
  trial_ends_at : Option Int
  plan_id : Option Nat
  already_had_trial : Bool
deriving DecidableEq

/-- Seconds in a day: `timedelta(days=1)`. -/
def daySecs : Int := 86400

/-- `POST /api/v1/users/{telegram_id}/trial/activate` (app_main.py:740-799):
404 for an unknown user; refusal when a trial was ever used or an active
subscription exists; otherwise insert one active trial subscription over
the trial plan's duration. -/
def activate_trial (db : DB) (now : Int) (telegram_id : Int) :
    HandlerResult TrialGrantResponse × DB :=
  match findUserByTg db telegram_id with
  | none => (HandlerResult.httpError 404 "user not found", db)
  | some user =>
      if has_had_trial db.subscriptions db.plans user.id then
        (HandlerResult.ok
          { success := false, message := "trial already used",
            trial_ends_at := none, plan_id := none, already_had_trial := true }, db)
      else if (get_active_subscription db.subscriptions user.id now).isSome then
        (HandlerResult.ok
          { success := false, message := "active subscription exists",
            trial_ends_at := none, plan_id := none, already_had_trial := false }, db)
      else
        let r := get_or_create_trial_plan db
        let plan := r.1
        let db1 := r.2
        let ends_at := now + (plan.duration_days : Int) * daySecs
        let sub : Subscription :=
          { id := db1.seq, user_id := user.id, plan_id := plan.id,
            server_id := none, starts_at := now, ends_at := ends_at,
            is_active := true, is_trial := true, source := "trial" }
        let db2 :=
          { db1 with
            subscriptions := db1.subscriptions ++ [sub],
            seq := db1.seq + 1 }
        (HandlerResult.ok
          { success := true, message := "trial activated",
            trial_ends_at := some ends_at, plan_id := some plan.id,
            already_had_trial := false }, db2)

/-! ### Payments (backend/payments_api.py) -/

/-- `TelegramPaymentSuccessIn` (payments_api.py:36-42). -/
structure TelegramPaymentSuccessIn where
  telegram_id : Int
  currency : String
  amount : Int
  invoice_payload : String
  telegram_payment_charge_id : String
  provider_payment_charge_id : Option String
deriving DecidableEq

/-- `TelegramPaymentSuccessOut` (payments_api.py:45-53); `active_until` is
kept as a timestamp instead of its ISO rendering. -/
structure TelegramPaymentSuccessOut where
  ok : Bool
  message : String
  telegram_id : Int
  payment_id : Option Nat
  subscription_id : Option Nat
  active_until : Option Int
  plan_code : Option String
  plan_name : Option String
deriving DecidableEq

/-- `_parse_plan_code_from_payload` (payments_api.py:70-84): expects
`vpn_plan:<plan_code>:...` and returns the plan code. -/
def parsePlanCode (payload : String) : Except String String :=
  let raw := pyTrim payload
  let parts := (splitOnChar ':' raw.toList).map String.mk
  match parts with
  | p0 :: p1 :: _ =>
      if p0 ≠ "vpn_plan" then Except.error "bad payload: wrong marker"
      else
        let planCode := pyTrim p1
        if planCode = "" then Except.error "bad payload: empty plan code"
        else Except.ok planCode
  | _ => Except.error "bad payload: too few parts"

/-- `_deactivate_user_subscriptions` (payments_api.py:87-99): clear
`is_active` on every active subscription of the user. -/
def deactivate_user_subscriptions (subs : List Subscription) (uid : Nat) :
    List Subscription :=
  subs.map (fun s =>
    if s.user_id = uid ∧ s.is_active = true then { s with is_active := false } else s)

/-- The payment lookup of step 2 (payments_api.py:117-121): first stored
payment with this `telegram_payment_charge_id`. -/
def findPaymentByCharge (payments : List Payment) (c : String) : Option Payment :=
  payments.find? (fun p => decide (p.telegram_payment_charge_id = c))

/-- `POST /api/v1/payments/telegram/success` (payments_api.py:102-231):
404 for an unknown user; an already-stored charge id returns the stored
payment unchanged; otherwise parse the plan code (400), find the plan
(404), require it active (409), require the paid amount to match within
the 10^-4-star tolerance (409), deactivate the user's active subscriptions, and insert the
new subscription and payment. -/
def telegram_payment_success (db : DB) (now : Int)
    (payload : TelegramPaymentSuccessIn) :
    HandlerResult TelegramPaymentSuccessOut × DB :=
  match findUserByTg db payload.telegram_id with
  | none => (HandlerResult.httpError 404 "user not found", db)
  | some user =>
      match findPaymentByCharge db.payments payload.telegram_payment_charge_id with
      | some existing =>
          let planInfo :
              Option String × Option String :=
            match existing.plan_id with
            | some pid =>
                match findPlanById db.plans pid with
                | some p => (some p.code, some p.name)
                | none => (none, none)
            | none => (none, none)
          let active_until : Option Int :=
            match existing.subscription_id with
            | some sid =>
                match findSubById db.subscriptions sid with
                | some s => some s.ends_at
                | none => none
            | none => none
          (HandlerResult.ok
            { ok := true, message := "payment already recorded",
              telegram_id := payload.telegram_id,
              payment_id := some existing.id,
              subscription_id := existing.subscription_id,
              active_until := active_until,
              plan_code := planInfo.1, plan_name := planInfo.2 }, db)
      | none =>
          match parsePlanCode payload.invoice_payload with
          | Except.error e => (HandlerResult.httpError 400 e, db)
          | Except.ok planCode =>
              match findPlanByCode db.plans planCode with
              | none => (HandlerResult.httpError 404 "plan not found", db)
              | some plan =>
                  if plan.is_active = false then
                    (HandlerResult.httpError 409 "plan disabled", db)
                  else if 1 < |plan.price_stars - payload.amount| then
                    (HandlerResult.httpError 409 "amount mismatch", db)
                  else
                    let ends_at := now + (plan.duration_days : Int) * daySecs
                    let subs1 := deactivate_user_subscriptions db.subscriptions user.id
                    let sub : Subscription :=
                      { id := db.seq, user_id := user.id, plan_id := plan.id,
                        server_id := none, starts_at := now, ends_at := ends_at,
                        is_active := true, is_trial := false, source := "stars" }
                    let pay : Payment :=
                      { id := db.seq + 1, provider := "telegram_stars",
                        user_id := user.id, telegram_id := payload.telegram_id,
                        plan_id := some plan.id, subscription_id := some sub.id,
                        currency := payload.currency, amount := payload.amount,
                        invoice_payload := payload.invoice_payload,
                        telegram_payment_charge_id :=
                          payload.telegram_payment_charge_id,
                        provider_payment_charge_id :=
                          payload.provider_payment_charge_id,
                        status := "paid" }
                    let db2 :=
                      { db with subscriptions := subs1 ++ [sub],
                                payments := db.payments ++ [pay],
                                seq := db.seq + 2 }
                    (HandlerResult.ok
                      { ok := true, message := "payment recorded",
                        telegram_id := payload.telegram_id,
                        payment_id := some pay.id,
                        subscription_id := some sub.id,
                        active_until := some ends_at,
                        plan_code := some plan.code,
                        plan_name := some plan.name }, db2)

/-! ### VPN peer endpoints (backend/app_main.py) -/

/-- Backend settings used by the peer endpoints (default location from
`config.py` via `settings`). -/
structure AppSettings where
  default_location_code : String
  default_location_name : String
deriving DecidableEq

/-- `PeerCreateRequest` (app_main.py:327-332). -/
structure PeerCreateRequest where
  telegram_id : Int
  telegram_username : Option String
  device_name : Option String
  location_code : Option String
  location_name : Option String
deriving DecidableEq

/-- `PeerCreateResponse` (app_main.py:335-340). -/
structure PeerCreateResponse where
  client_id : String
  client_name : String
  location_code : String
  location_name : String
  config : String
deriving DecidableEq

/-- A character kept by `_DEVICE_SAFE_RE` (app_main.py:72): ASCII letters,
digits, underscore, hyphen, dot. -/
def isDeviceSafeChar (c : Char) : Bool :=
  c.isAlpha || c.isDigit || c = '_' || c = '-' || c = '.'

/-- `normalize_client_name` (app_main.py:383-395): trim, fall back when
empty, replace spaces by underscores, drop unsafe characters, fall back
again when empty, cap at 48 characters. -/
def normalize_client_name (rawName fallback : String) : String :=
  let name := pyTrim rawName
  let name := if name = "" then fallback else name
  let name := String.mk
    ((name.toList.map (fun c => if c = ' ' then '_' else c)).filter isDeviceSafeChar)
  let name := if name = "" then fallback else name
  if 48 < name.length then String.mk (name.toList.take 48) else name

/-- The client name computed by `create_vpn_peer` (app_main.py:875-883):
normalized device name (falling back to a tg-prefixed default), capped at
40 characters, suffixed
with the current UNIX timestamp. -/
def buildClientName (user : User) (payload : PeerCreateRequest)
    (loc : String) (now : Int) : String :=
  let fallback := "tg_" ++ toString user.telegram_id ++ "_" ++ loc
  let rawName := pyOr payload.device_name fallback
  let name := normalize_client_name rawName fallback
  let name := if 40 < name.length then String.mk (name.toList.take 40) else name
  name ++ "_" ++ toString now

/-- The detail string of the device-limit 409 (app_main.py:599-602). -/
def limitDetail (m : Nat) : String :=
  "device limit reached: " ++ toString m

/-- Fixed 403 details of `require_active_subscription` (app_main.py:548-560). -/
def noSubDetail : String := "no active subscription"

/-- 403 detail for a disabled plan (app_main.py:555-559). -/
def planOffDetail : String := "plan disabled"

/-- The fixed generic hint returned whenever WG-Easy fails during peer
creation (app_main.py:913-921). -/
def wgHint : String :=
  "WG-Easy returned an error; check password, IP pool and volume, then retry"

/-- `enforce_device_limit` (app_main.py:563-602): with a truthy plan
`max_devices`, pass when the user already has an active peer in the
location, otherwise 409 when the count of active peers reached the limit.
Returns the 409 detail on violation. -/
def enforce_device_limit (plans : List SubscriptionPlan) (peers : List VpnPeer)
    (uid : Nat) (loc : String) (sub : Subscription) : Option String :=
  let maxDevices : Option Nat :=
    match findPlanById plans sub.plan_id with
    | some p =>
        match p.max_devices with
        | some m => if m = 0 then none else some m
        | none => none
    | none => none
  match maxDevices with
  | none => none
  | some m =>
      let activeCount :=
        (peers.filter (fun q => decide (q.user_id = uid ∧ q.is_active = true))).length
      let inLocation :=
        peers.any (fun q =>
          decide (q.user_id = uid ∧ q.location_code = loc ∧ q.is_active = true))
      if inLocation then none
      else if m ≤ activeCount then some (limitDetail m) else none

/-- The `existing_peer` lookup (app_main.py:849-859): first active peer of
the user in the location. -/
def findExistingPeer (peers : List VpnPeer) (uid : Nat) (loc : String) :
    Option VpnPeer :=
  peers.find? (fun q => decide (q.user_id = uid ∧ q.location_code = loc ∧ q.is_active = true))

/-- `POST /api/v1/vpn/peers/create` (app_main.py:822-921): register the
user, require an active subscription (403) on an enabled plan (403),
enforce the device limit (409); an existing active peer in the location is
re-served from WG-Easy, otherwise a new client is provisioned and one
`VpnPeer` row committed. Any WG-Easy exception is logged and mapped to a
502 with a fixed hint. The third component reports whether a WG-Easy error
was logged. This core runs after `get_or_create_user`. -/
def create_vpn_peer_core (stg : AppSettings) (wg : WGCfg) (db1 : DB)
    (user : User) (now : Int) (payload : PeerCreateRequest) (trace : List HResp) :
    HandlerResult PeerCreateResponse × DB × Bool :=
  match get_active_subscription db1.subscriptions user.id now with
  | none => (HandlerResult.httpError 403 noSubDetail, db1, false)
  | some sub =>
      if (match findPlanById db1.plans sub.plan_id with
          | some p => p.is_active == false
          | none => false : Bool) then
        (HandlerResult.httpError 403 planOffDetail, db1, false)
      else
        let loc := pyOr payload.location_code stg.default_location_code
        let locName := pyOr payload.location_name stg.default_location_name
        match enforce_device_limit db1.plans db1.peers user.id loc sub with
        | some detail => (HandlerResult.httpError 409 detail, db1, false)
        | none =>
            match findExistingPeer db1.peers user.id loc with
            | some ep =>
                (match (wgGetConfigRun wg ep.wg_client_id (WGState.mk trace [])).1 with
                 | Except.error _ => (HandlerResult.httpError 502 wgHint, db1, true)
                 | Except.ok cfgText =>
                     if pyTrim cfgText = "" then
                       (HandlerResult.httpError 502 wgHint, db1, true)
                     else
                       (HandlerResult.ok
                         { client_id := ep.wg_client_id,
                           client_name := ep.client_name,
                           location_code := ep.location_code,
                           location_name := ep.location_name,
                           config := cfgText }, db1, false))
            | none =>
                let clientName := buildClientName user payload loc now
                match (createAndGetConfig wg clientName (WGState.mk trace [])).1 with
                | Except.error _ => (HandlerResult.httpError 502 wgHint, db1, true)
                | Except.ok pair =>
                    let peer : VpnPeer :=
                      { id := db1.seq, user_id := user.id,
                        wg_client_id := pair.1, client_name := clientName,
                        location_code := loc, location_name := locName,
                        is_active := true, created_at := now, revoked_at := none }
                    let db2 :=
                      { db1 with
                        peers := db1.peers ++ [peer],
                        seq := db1.seq + 1 }
                    (HandlerResult.ok
                      { client_id := pair.1, client_name := clientName,
                        location_code := loc, location_name := locName,
                        config := pair.2 }, db2, false)

/-- `POST /api/v1/vpn/peers/create`, full endpoint: user registration
followed by the core above. -/
def create_vpn_peer (stg : AppSettings) (wg : WGCfg) (db : DB) (now : Int)
    (payload : PeerCreateRequest) (trace : List HResp) :
    HandlerResult PeerCreateResponse × DB × Bool :=
  let r0 := get_or_create_user db
    { telegram_id := payload.telegram_id, username := payload.telegram_username,
      first_name := none, last_name := none, language_code := none }
  create_vpn_peer_core stg wg r0.2.2 r0.1 now payload trace

/-- `PeerListItem` (app_main.py:343-350). -/
structure PeerListItem where
  client_id : String
  client_name : String
  location_code : String
  location_name : String
  is_active : Bool
  created_at : Option Int
  revoked_at : Option Int
deriving DecidableEq

/-- Descending insertion by `created_at` (`order_by(created_at.desc())`). -/
def insertByCreatedDesc (p : VpnPeer) : List VpnPeer → List VpnPeer
  | [] => [p]
  | q :: rest =>
      if q.created_at < p.created_at then p :: q :: rest
      else q :: insertByCreatedDesc p rest

/-- `GET /api/v1/vpn/peers/list` (app_main.py:924-957): 404 for an unknown
user, otherwise the user's peers newest-first. -/
def list_vpn_peers (db : DB) (telegram_id : Int) :
    HandlerResult (List PeerListItem) × DB :=
  match findUserByTg db telegram_id with
  | none => (HandlerResult.httpError 404 "user not found", db)
  | some user =>
      let rows := (db.peers.filter (fun q => decide (q.user_id = user.id))).foldr
        insertByCreatedDesc []
      (HandlerResult.ok (rows.map (fun p =>
        { client_id := p.wg_client_id, client_name := p.client_name,
          location_code := p.location_code, location_name := p.location_name,
          is_active := p.is_active, created_at := some p.created_at,
          revoked_at := p.revoked_at })), db)

/-- `PeerRevokeRequest` (app_main.py:358-361). -/
structure PeerRevokeRequest where
  telegram_id : Int
  client_id : String
  location_code : Option String
deriving DecidableEq

/-- The revoke response dict `{"ok": ..., "message": ...}`. -/
structure RevokeResponse where
  ok : Bool
  message : String
deriving DecidableEq

/-- The peer query of `revoke_vpn_peer` (app_main.py:972-979): user +
client id, narrowed by location when one is given. -/
def findPeerForRevoke (peers : List VpnPeer) (uid : Nat)
    (payload : PeerRevokeRequest) : Option VpnPeer :=
  peers.find? (fun q => decide (q.user_id = uid ∧ q.wg_client_id = payload.client_id ∧
    (optTruthy payload.location_code = true → some q.location_code = payload.location_code)))

/-- `POST /api/v1/vpn/peers/revoke` (app_main.py:960-1003): 404 for an
unknown user or peer; an inactive peer returns ok unchanged; otherwise
WG-Easy deletion is attempted best-effort (its outcome only logged) and
the row is deactivated with `revoked_at` set. -/
def revoke_vpn_peer (wg : WGCfg) (db : DB) (now : Int)
    (payload : PeerRevokeRequest) (trace : List HResp) :
    HandlerResult RevokeResponse × DB :=
  match findUserByTg db payload.telegram_id with
  | none => (HandlerResult.httpError 404 "user not found", db)
  | some user =>
      match findPeerForRevoke db.peers user.id payload with
      | none => (HandlerResult.httpError 404 "peer not found", db)
      | some peer =>
          if peer.is_active = false then
            (HandlerResult.ok { ok := true, message := "peer already deactivated" }, db)
          else
            let _deleted := wgDeleteRun wg peer.wg_client_id (WGState.mk trace [])
            let db2 :=
              { db with
                peers := db.peers.map (fun q =>
                  if q.id = peer.id then
                    { q with is_active := false, revoked_at := some now }
                  else q) }
            (HandlerResult.ok { ok := true, message := "peer deactivated" }, db2)

/-! ### Helper lemmas -/

theorem gocu_plans (db : DB) (p : TelegramUserIn) :
    (get_or_create_user db p).2.2.plans = db.plans := by
  unfold get_or_create_user
  rcases h : findUserByTg db p.telegram_id with _ | u <;> simp only [h]
  split <;> rfl

theorem gocu_subs (db : DB) (p : TelegramUserIn) :
    (get_or_create_user db p).2.2.subscriptions = db.subscriptions := by
  unfold get_or_create_user
  rcases h : findUserByTg db p.telegram_id with _ | u <;> simp only [h]
  split <;> rfl

theorem gocu_peers (db : DB) (p : TelegramUserIn) :
    (get_or_create_user db p).2.2.peers = db.peers := by
  unfold get_or_create_user
  rcases h : findUserByTg db p.telegram_id with _ | u <;> simp only [h]
  split <;> rfl

theorem gocu_payments (db : DB) (p : TelegramUserIn) :
    (get_or_create_user db p).2.2.payments = db.payments := by
  unfold get_or_create_user
  rcases h : findUserByTg db p.telegram_id with _ | u <;> simp only [h]
  split <;> rfl

theorem gocu_found_id (db : DB) (p : TelegramUserIn) (u : User)
    (h : findUserByTg db p.telegram_id = some u) :
    (get_or_create_user db p).1.id = u.id := by
  unfold get_or_create_user
  simp only [h]
  split <;> rfl

theorem foldl_pickLater_isSome (l : List Subscription) :
    ∀ s : Subscription, (l.foldl pickLater (some s)).isSome = true := by
  induction l with
  | nil => intro s; rfl
  | cons x xs ih =>
      intro s
      show (xs.foldl pickLater (pickLater (some s) x)).isSome = true
      by_cases h : s.ends_at < x.ends_at
      · simpa [pickLater, h] using ih x
      · simpa [pickLater, h] using ih s

theorem latestByEnds_eq_none (l : List Subscription) :
    latestByEnds l = none ↔ l = [] := by
  cases l with
  | nil => simp [latestByEnds]
  | cons x xs =>
      constructor
      · intro h
        have h2 : (latestByEnds (x :: xs)).isSome = true := by
          show ((x :: xs).foldl pickLater none).isSome = true
          show (xs.foldl pickLater (pickLater none x)).isSome = true
          simpa [pickLater] using foldl_pickLater_isSome xs x
        rw [h] at h2
        cases h2
      · intro h; cases h

theorem get_active_subscription_none (subs : List Subscription) (uid : Nat) (now : Int) :
    get_active_subscription subs uid now = none ↔ activeSubsOf subs uid now = [] := by
  unfold get_active_subscription
  exact latestByEnds_eq_none _

/-! ### Claim C3: retry behaviour of the login/session wrapper -/

/-- C3 counterexample: a failing login (HTTP 401 on `POST /api/session`)
makes the wrapper raise at once with exactly one request issued — it never
issues the request again before failing. -/
theorem login_retry_counterexample :
    (wgLogin "pw" (WGState.mk [HResp.http 401 "text/html" "Unauthorized" JVal.jnull] [])).1
      = Except.error (WGErr.respError 401 (pyTake "Unauthorized" 1500)) ∧
    (wgLogin "pw" (WGState.mk [HResp.http 401 "text/html" "Unauthorized" JVal.jnull] [])).2.log
      = [("POST", "/api/session")] := by
  constructor <;> rfl

/-- C3 (amended): the wrapper never retries: a login/session call issues
exactly one HTTP request, and a failing response raises immediately as
`ClientResponseError` after that single request. -/
theorem login_single_request_then_raise (password : String) (trace : List HResp) :
    (wgLogin password (WGState.mk trace [])).2.log = [("POST", "/api/session")] ∧
    (∀ s ct body j rest, trace = HResp.http s ct body j :: rest → s ≠ 200 →
      (wgLogin password (WGState.mk trace [])).1
        = Except.error (WGErr.respError s (pyTake body 1500))) := by
  constructor
  · rw [wgLogin_log]; rfl
  · intro s ct body j rest htr hs
    subst htr
    show loginCheck "WG-Easy login failed"
      (wgRequest "POST" "/api/session" 200 true
        (WGState.mk (HResp.http s ct body j :: rest) [])).1 = _
    unfold wgRequest
    simp only [hs, if_true, ne_eq, not_false_eq_true, if_pos]
    rfl

/-- C3 witness for the amended theorem at a concrete failing trace. -/
theorem login_single_request_then_raise_witness :
    (wgLogin "pw" (WGState.mk [HResp.http 502 "text/plain" "bad" JVal.jnull] [])).1
      = Except.error (WGErr.respError 502 (pyTake "bad" 1500)) :=
  (login_single_request_then_raise "pw" _).2 502 "text/plain" "bad" JVal.jnull [] rfl
    (by decide)

/-! ### Claim C6: unknown telegram_id yields 404 and no change -/

/-- C6: every request naming a telegram_id with no registered user —
subscription status, trial activation, peer list, peer revocation — fails
with HTTP 404 and leaves the database unchanged. -/
theorem unknown_user_all_404 (db : DB) (now : Int) (tid : Int) (wg : WGCfg)
    (trace : List HResp) (rp : PeerRevokeRequest)
    (h : findUserByTg db tid = none) (hrp : rp.telegram_id = tid) :
    get_subscription_status db now tid
      = (HandlerResult.httpError 404 "user not found", db) ∧
    activate_trial db now tid
      = (HandlerResult.httpError 404 "user not found", db) ∧
    list_vpn_peers db tid
      = (HandlerResult.httpError 404 "user not found", db) ∧
    revoke_vpn_peer wg db now rp trace
      = (HandlerResult.httpError 404 "user not found", db) := by
  refine ⟨?_, ?_, ?_, ?_⟩
  · unfold get_subscription_status; simp [h]
  · unfold activate_trial; simp [h]
  · unfold list_vpn_peers; simp [h]
  · unfold revoke_vpn_peer; rw [hrp]; simp [h]

/-- C6 witness: a concrete empty database and telegram id. -/
theorem unknown_user_all_404_witness :
    get_subscription_status (DB.mk [] [] [] [] [] 0) 0 7
      = (HandlerResult.httpError 404 "user not found", DB.mk [] [] [] [] [] 0) ∧
    revoke_vpn_peer (WGCfg.mk "u" "p" 15) (DB.mk [] [] [] [] [] 0) 0
        (PeerRevokeRequest.mk 7 "cid" none) []
      = (HandlerResult.httpError 404 "user not found", DB.mk [] [] [] [] [] 0) := by
  have h := unknown_user_all_404 (DB.mk [] [] [] [] [] 0) 0 7 (WGCfg.mk "u" "p" 15)
    [] (PeerRevokeRequest.mk 7 "cid" none) (by rfl) (by rfl)
  exact ⟨h.1, h.2.2.2⟩

/-! ### Claim C10: revocation is idempotent and tolerant -/

/-- C10: revoking an already-inactive peer returns ok and changes nothing;
revoking an active peer always ends with `is_active = false` and
`revoked_at` set regardless of the WG-Easy trace; and a 204 or 404 reply
to the delete call counts as successful deletion. -/
theorem revoke_idempotent_tolerant (wg : WGCfg) (db : DB) (now : Int)
    (payload : PeerRevokeRequest) (trace : List HResp) (cid : String)
    (user : User) (peer : VpnPeer)
    (hu : findUserByTg db payload.telegram_id = some user)
    (hp : findPeerForRevoke db.peers user.id payload = some peer) :
    (peer.is_active = false →
      revoke_vpn_peer wg db now payload trace
        = (HandlerResult.ok (RevokeResponse.mk true "peer already deactivated"), db)) ∧
    (peer.is_active = true →
      (revoke_vpn_peer wg db now payload trace).1
        = HandlerResult.ok (RevokeResponse.mk true "peer deactivated") ∧
      (revoke_vpn_peer wg db now payload trace).2.peers
        = db.peers.map (fun q =>
            if q.id = peer.id then
              { q with is_active := false, revoked_at := some now }
            else q)) ∧
    (wgDeleteClient cid (WGState.mk [HResp.http 204 "text/plain" "x" JVal.jnull] [])).1
      = true ∧
    (wgDeleteClient cid (WGState.mk [HResp.http 404 "text/plain" "x" JVal.jnull] [])).1
      = true := by
  refine ⟨?_, ?_, ?_, ?_⟩
  · intro hin
    unfold revoke_vpn_peer
    simp [hu, hp, hin]
  · intro hact
    unfold revoke_vpn_peer
    simp [hu, hp, hact]
  · rfl
  · rfl

/-- C10 witness: one active and one inactive peer in a concrete database. -/
theorem revoke_idempotent_tolerant_witness :
    (revoke_vpn_peer (WGCfg.mk "u" "p" 15)
        (DB.mk [User.mk 1 42 none none none none false false] [] []
          [VpnPeer.mk 4 1 "cidA" "dev" "eu-nl" "NL" false 0 (some 5)] [] 9)
        7 (PeerRevokeRequest.mk 42 "cidA" none) [])
      = (HandlerResult.ok (RevokeResponse.mk true "peer already deactivated"),
         DB.mk [User.mk 1 42 none none none none false false] [] []
          [VpnPeer.mk 4 1 "cidA" "dev" "eu-nl" "NL" false 0 (some 5)] [] 9) ∧
    (revoke_vpn_peer (WGCfg.mk "u" "p" 15)
        (DB.mk [User.mk 1 42 none none none none false false] [] []
          [VpnPeer.mk 4 1 "cidB" "dev" "eu-nl" "NL" true 0 none] [] 9)
        7 (PeerRevokeRequest.mk 42 "cidB" none) []).2.peers
      = [VpnPeer.mk 4 1 "cidB" "dev" "eu-nl" "NL" false 0 (some 7)] := by
  constructor
  · exact (revoke_idempotent_tolerant (WGCfg.mk "u" "p" 15) _ 7 _ [] "c"
      (User.mk 1 42 none none none none false false)
      (VpnPeer.mk 4 1 "cidA" "dev" "eu-nl" "NL" false 0 (some 5))
      (by rfl) (by rfl)).1 rfl
  · have h := (revoke_idempotent_tolerant (WGCfg.mk "u" "p" 15)
      (DB.mk [User.mk 1 42 none none none none false false] [] []
        [VpnPeer.mk 4 1 "cidB" "dev" "eu-nl" "NL" true 0 none] [] 9)
      7 (PeerRevokeRequest.mk 42 "cidB" none) [] "c"
      (User.mk 1 42 none none none none false false)
      (VpnPeer.mk 4 1 "cidB" "dev" "eu-nl" "NL" true 0 none)
      (by rfl) (by rfl)).2.1 rfl
    rw [h.2]
    rfl

/-! ### Claim C1: payment idempotency per charge id -/

/-- Number of stored payments carrying a given
`telegram_payment_charge_id`. -/
def chargeCount (payments : List Payment) (c : String) : Nat :=
  (payments.filter (fun p => decide (p.telegram_payment_charge_id = c))).length

/-- C1: a call whose charge id is already stored changes nothing and
returns ok with the stored payment's id and linked subscription; and the
endpoint preserves "at most one payment per charge id". -/
theorem payment_idempotent_per_charge (db : DB) (now : Int)
    (payload : TelegramPaymentSuccessIn) :
    (∀ user p, findUserByTg db payload.telegram_id = some user →
      findPaymentByCharge db.payments payload.telegram_payment_charge_id = some p →
      (telegram_payment_success db now payload).2 = db ∧
      ∃ out, (telegram_payment_success db now payload).1 = HandlerResult.ok out ∧
        out.ok = true ∧ out.payment_id = some p.id ∧
        out.subscription_id = p.subscription_id) ∧
    (∀ c, chargeCount db.payments c ≤ 1 →
      chargeCount (telegram_payment_success db now payload).2.payments c ≤ 1) := by
  constructor
  · intro user p hu hp
    unfold telegram_payment_success
    rw [hu, hp]
    exact ⟨rfl, ⟨_, rfl, rfl, rfl, rfl⟩⟩
  · intro c hc
    unfold telegram_payment_success
    rcases hu : findUserByTg db payload.telegram_id with _ | user
    · exact hc
    · dsimp only
      rcases hp : findPaymentByCharge db.payments payload.telegram_payment_charge_id
        with _ | q
      · dsimp only
        rcases hpc : parsePlanCode payload.invoice_payload with e | code
        · exact hc
        · dsimp only
          rcases hpl : findPlanByCode db.plans code with _ | plan
          · exact hc
          · try dsimp only
            by_cases hact : plan.is_active = false
            · rw [if_pos hact]; exact hc
            · rw [if_neg hact]
              by_cases hamt : (1 : Int) < |plan.price_stars - payload.amount|
              · rw [if_pos hamt]; exact hc
              · rw [if_neg hamt]
                dsimp only [chargeCount]
                try dsimp only
                rw [List.filter_append, List.length_append]
                have hnone : ∀ x ∈ db.payments,
                    ¬(x.telegram_payment_charge_id
                        = payload.telegram_payment_charge_id) := by
                  intro x hx hx2
                  have h2 := List.find?_eq_none.mp hp x hx
                  simp [hx2] at h2
                by_cases hcc : c = payload.telegram_payment_charge_id
                · have hz : (db.payments.filter
                      (fun p => decide (p.telegram_payment_charge_id = c))).length = 0 := by
                    rw [List.length_eq_zero, List.filter_eq_nil]
                    intro a ha
                    rw [hcc]
                    simpa using hnone a ha
                  rw [hz]
                  have hle := List.length_filter_le
                    (fun p : Payment => decide (p.telegram_payment_charge_id = c))
                  simpa using hle _
                · have hz : (List.filter
                      (fun p : Payment => decide (p.telegram_payment_charge_id = c))
                      [{ id := db.seq + 1, provider := "telegram_stars",
                         user_id := user.id, telegram_id := payload.telegram_id,
                         plan_id := some plan.id, subscription_id := some db.seq,
                         currency := payload.currency, amount := payload.amount,
                         invoice_payload := payload.invoice_payload,
                         telegram_payment_charge_id :=
                           payload.telegram_payment_charge_id,
                         provider_payment_charge_id :=
                           payload.provider_payment_charge_id,
                         status := "paid" }]).length = 0 := by
                    simp [Ne.symm hcc]
                  rw [hz]
                  simpa using hc
      · exact hc

/-- C1 witness: a stored payment with charge id `chg1` is returned as-is
and no second row is created. -/
theorem payment_idempotent_per_charge_witness :
    (telegram_payment_success
        (DB.mk [User.mk 1 42 none none none none false false] [] [] []
          [Payment.mk 5 "telegram_stars" 1 42 none none "XTR" 69
            "vpn_plan:m1:42:1" "chg1" none "paid"] 9)
        0
        (TelegramPaymentSuccessIn.mk 42 "XTR" 69 "vpn_plan:m1:42:1" "chg1" none)).2
      = DB.mk [User.mk 1 42 none none none none false false] [] [] []
          [Payment.mk 5 "telegram_stars" 1 42 none none "XTR" 69
            "vpn_plan:m1:42:1" "chg1" none "paid"] 9 ∧
    chargeCount (telegram_payment_success
        (DB.mk [User.mk 1 42 none none none none false false] [] [] []
          [Payment.mk 5 "telegram_stars" 1 42 none none "XTR" 69
            "vpn_plan:m1:42:1" "chg1" none "paid"] 9)
        0
        (TelegramPaymentSuccessIn.mk 42 "XTR" 69 "vpn_plan:m1:42:1" "chg1" none)).2.payments
        "chg1" ≤ 1 := by
  have h := payment_idempotent_per_charge
    (DB.mk [User.mk 1 42 none none none none false false] [] [] []
      [Payment.mk 5 "telegram_stars" 1 42 none none "XTR" 69
        "vpn_plan:m1:42:1" "chg1" none "paid"] 9)
    0
    (TelegramPaymentSuccessIn.mk 42 "XTR" 69 "vpn_plan:m1:42:1" "chg1" none)
  refine ⟨(h.1 (User.mk 1 42 none none none none false false)
      (Payment.mk 5 "telegram_stars" 1 42 none none "XTR" 69
        "vpn_plan:m1:42:1" "chg1" none "paid") (by rfl) (by rfl)).1,
    h.2 "chg1" (by decide)⟩

/-! ### Claim C2: trial granted at most once -/

/-- C2: a user who ever had a trial gets a refusal with
`already_had_trial = true` and no new row; a user with an active
subscription gets a refusal and no new row; only a user with neither gets
exactly one new active 10-day trial subscription with `is_trial = true`
(10 days provided the stored `trial_10` plan, if any, has its standard
10-day duration). -/
theorem trial_granted_at_most_once (db : DB) (now : Int) (tid : Int) (user : User)
    (hu : findUserByTg db tid = some user) :
    (has_had_trial db.subscriptions db.plans user.id = true →
      activate_trial db now tid
        = (HandlerResult.ok
            (TrialGrantResponse.mk false "trial already used" none none true), db)) ∧
    (has_had_trial db.subscriptions db.plans user.id = false →
      ∀ s0, get_active_subscription db.subscriptions user.id now = some s0 →
      activate_trial db now tid
        = (HandlerResult.ok
            (TrialGrantResponse.mk false "active subscription exists" none none false),
           db)) ∧
    (has_had_trial db.subscriptions db.plans user.id = false →
      get_active_subscription db.subscriptions user.id now = none →
      (∀ p ∈ db.plans, p.code = "trial_10" → p.duration_days = 10) →
      ∃ s, (activate_trial db now tid).2.subscriptions = db.subscriptions ++ [s] ∧
        s.user_id = user.id ∧ s.is_trial = true ∧ s.is_active = true ∧
        s.starts_at = now ∧ s.ends_at = now + 10 * daySecs ∧
        ∃ out, (activate_trial db now tid).1 = HandlerResult.ok out ∧
          out.success = true ∧ out.already_had_trial = false ∧
          out.trial_ends_at = some (now + 10 * daySecs)) := by
  refine ⟨?_, ?_, ?_⟩
  · intro hht
    unfold activate_trial
    rw [hu]
    simp [hht]
  · intro hht s0 hs0
    unfold activate_trial
    rw [hu]
    simp [hht, hs0]
  · intro hht hga htp
    unfold activate_trial
    rw [hu]
    simp only [hht, Bool.false_eq_true, if_false, hga, Option.isSome_none]
    have hdur : (get_or_create_trial_plan db).1.duration_days = 10 := by
      unfold get_or_create_trial_plan
      rcases hplan : findPlanByCode db.plans "trial_10" with _ | p
      · rfl
      · have hmem : p ∈ db.plans := List.mem_of_find?_eq_some hplan
        have hcode : p.code = "trial_10" := by
          have := List.find?_some hplan
          simpa using this
        simpa using htp p hmem hcode
    have hsubs2 : (get_or_create_trial_plan db).2.subscriptions = db.subscriptions := by
      unfold get_or_create_trial_plan
      rcases hplan : findPlanByCode db.plans "trial_10" with _ | p <;> rfl
    refine ⟨Subscription.mk (get_or_create_trial_plan db).2.seq user.id
        (get_or_create_trial_plan db).1.id none now
        (now + ((get_or_create_trial_plan db).1.duration_days : Int) * daySecs)
        true true "trial",
      ?_, rfl, rfl, rfl, rfl, ?_, _, rfl, rfl, rfl, ?_⟩
    · dsimp only
      rw [hsubs2]
    · dsimp only
      rw [hdur]
      norm_num
    · dsimp only
      rw [hdur]
      norm_num

/-- C2 witness: a fresh user with no plans and no subscriptions receives
exactly one 10-day trial. -/
theorem trial_granted_at_most_once_witness :
    ∃ s, (activate_trial
        (DB.mk [User.mk 1 42 none none none none false false] [] [] [] [] 9)
        0 42).2.subscriptions = [] ++ [s] ∧
      s.user_id = 1 ∧ s.is_trial = true ∧ s.is_active = true ∧
      s.starts_at = 0 ∧ s.ends_at = 0 + 10 * daySecs ∧
      ∃ out, (activate_trial
          (DB.mk [User.mk 1 42 none none none none false false] [] [] [] [] 9)
          0 42).1 = HandlerResult.ok out ∧
        out.success = true ∧ out.already_had_trial = false ∧
        out.trial_ends_at = some (0 + 10 * daySecs) :=
  (trial_granted_at_most_once
    (DB.mk [User.mk 1 42 none none none none false false] [] [] [] [] 9)
    0 42 (User.mk 1 42 none none none none false false) (by rfl)).2.2
    (by rfl) (by rfl) (by simp)

/-! ### Claim C7: provisioning sequence of create_and_get_config -/

theorem andThen_ok_elim {α β : Type} (r : Except WGErr α × WGState)
    (f : α → WGState → Except WGErr β × WGState) (b : β)
    (h : (andThen r f).1 = Except.ok b) :
    ∃ a, r.1 = Except.ok a ∧ andThen r f = f a r.2 := by
  rcases r with ⟨r1, st⟩
  cases r1 with
  | error e => exact absurd h (by simp [andThen])
  | ok a => exact ⟨a, rfl, rfl⟩

theorem createAndGetConfig_ok (wg : WGCfg) (clientName : String) (st : WGState)
    (cid conf : String)
    (h : (createAndGetConfig wg clientName st).1 = Except.ok (cid, conf)) :
    pyTrim conf ≠ "" ∧ wgBase wg ≠ "" ∧ wg.password ≠ "" ∧
    (createAndGetConfig wg clientName st).2.log
      = st.log ++ [("POST", "/api/session"), ("POST", "/api/wireguard/client"),
          ("GET", "/api/wireguard/client"),
          ("GET", "/api/wireguard/client/" ++ cid ++ "/configuration")] := by
  unfold createAndGetConfig at h ⊢
  by_cases hb : wgBase wg = ""
  · rw [if_pos hb] at h; simp at h
  · rw [if_neg hb] at h ⊢
    by_cases hpw : wg.password = ""
    · rw [if_pos hpw] at h; simp at h
    · rw [if_neg hpw] at h ⊢
      obtain ⟨u1, h1, he1⟩ := andThen_ok_elim _ _ _ h
      rw [he1] at h ⊢
      obtain ⟨u2, h2, he2⟩ := andThen_ok_elim _ _ _ h
      rw [he2] at h ⊢
      obtain ⟨cidOpt, h3, he3⟩ := andThen_ok_elim _ _ _ h
      rw [he3] at h ⊢
      cases cidOpt with
      | none => simp at h
      | some cid0 =>
        dsimp only at h ⊢
        obtain ⟨cfgText, h4, he4⟩ := andThen_ok_elim _ _ _ h
        rw [he4] at h ⊢
        by_cases ht : pyTrim cfgText = ""
        · rw [if_pos ht] at h; simp at h
        · rw [if_neg ht] at h ⊢
          have hc : cid0 = cid ∧ cfgText = conf := by simpa using h
          obtain ⟨hc1, hc2⟩ := hc
          subst hc1
          subst hc2
          refine ⟨ht, hb, hpw, ?_⟩
          dsimp only
          rw [wgGetConfiguration_log, wgFindClientId_log, wgCreateClient_log,
            wgLogin_log]
          simp

/-- C7: `create_and_get_config` follows the fixed sequence login, client
creation, id lookup by name, configuration retrieval; it returns a
`(client id, config)` pair only when every step succeeds — in that case
the request log is exactly the four-step sequence and the configuration is
nonempty — and it raises when the base URL or password is empty, when the
created client's id is not found in the list, or when the retrieved
configuration is empty. -/
theorem create_and_get_config_sequence (wg : WGCfg) (clientName : String)
    (trace : List HResp) :
    ((wgBase wg = "" ∨ wg.password = "") →
      (∃ e, (createAndGetConfig wg clientName (WGState.mk trace [])).1
          = Except.error e) ∧
      (createAndGetConfig wg clientName (WGState.mk trace [])).2.log = []) ∧
    (∀ cid conf, (createAndGetConfig wg clientName (WGState.mk trace [])).1
        = Except.ok (cid, conf) →
      pyTrim conf ≠ "" ∧ wgBase wg ≠ "" ∧ wg.password ≠ "" ∧
      (createAndGetConfig wg clientName (WGState.mk trace [])).2.log
        = [("POST", "/api/session"), ("POST", "/api/wireguard/client"),
           ("GET", "/api/wireguard/client"),
           ("GET", "/api/wireguard/client/" ++ cid ++ "/configuration")]) ∧
    (createAndGetConfig (WGCfg.mk "http://wg" "pw" 15) "n"
        (WGState.mk
          [HResp.http 200 "application/json" "" (JVal.jobj [("success", JVal.jb true)]),
           HResp.http 200 "application/json" "" (JVal.jobj [("success", JVal.jb true)]),
           HResp.http 200 "application/json" "" (JVal.jarr [])] [])).1
      = Except.error (WGErr.runtimeError "WG-Easy: client created but id not found") ∧
    (createAndGetConfig (WGCfg.mk "http://wg" "pw" 15) "n"
        (WGState.mk
          [HResp.http 200 "application/json" "" (JVal.jobj [("success", JVal.jb true)]),
           HResp.http 200 "application/json" "" (JVal.jobj [("success", JVal.jb true)]),
           HResp.http 200 "application/json" ""
             (JVal.jarr [JVal.jobj [("name", JVal.js "n"), ("id", JVal.js "cid0")]]),
           HResp.http 200 "text/plain" " " JVal.jnull] [])).1
      = Except.error (WGErr.runtimeError "WG-Easy: empty configuration") := by
  refine ⟨?_, ?_, ?_, ?_⟩
  · intro h
    unfold createAndGetConfig
    by_cases hb : wgBase wg = ""
    · rw [if_pos hb]; exact ⟨⟨_, rfl⟩, rfl⟩
    · rw [if_neg hb]
      have hpw : wg.password = "" := h.resolve_left hb
      rw [if_pos hpw]; exact ⟨⟨_, rfl⟩, rfl⟩
  · intro cid conf h
    have hres := createAndGetConfig_ok wg clientName (WGState.mk trace []) cid conf h
    exact ⟨hres.1, hres.2.1, hres.2.2.1, by simpa using hres.2.2.2⟩
  · rfl
  · rfl

/-- C7 witness: a fully successful four-step trace yields the pair and the
four-request log. -/
theorem create_and_get_config_sequence_witness :
    (pyTrim "conf-data" ≠ "" ∧ wgBase (WGCfg.mk "http://wg" "pw" 15) ≠ "" ∧
      (WGCfg.mk "http://wg" "pw" 15).password ≠ "" ∧
      (createAndGetConfig (WGCfg.mk "http://wg" "pw" 15) "n"
        (WGState.mk
          [HResp.http 200 "application/json" "" (JVal.jobj [("success", JVal.jb true)]),
           HResp.http 200 "application/json" "" (JVal.jobj [("success", JVal.jb true)]),
           HResp.http 200 "application/json" ""
             (JVal.jarr [JVal.jobj [("name", JVal.js "n"), ("id", JVal.js "cid0")]]),
           HResp.http 200 "text/plain" "conf-data" JVal.jnull] [])).2.log
        = [("POST", "/api/session"), ("POST", "/api/wireguard/client"),
           ("GET", "/api/wireguard/client"),
           ("GET", "/api/wireguard/client/" ++ "cid0" ++ "/configuration")]) :=
  (create_and_get_config_sequence (WGCfg.mk "http://wg" "pw" 15) "n"
      [HResp.http 200 "application/json" "" (JVal.jobj [("success", JVal.jb true)]),
       HResp.http 200 "application/json" "" (JVal.jobj [("success", JVal.jb true)]),
       HResp.http 200 "application/json" ""
         (JVal.jarr [JVal.jobj [("name", JVal.js "n"), ("id", JVal.js "cid0")]]),
       HResp.http 200 "text/plain" "conf-data" JVal.jnull]).2.1
    "cid0" "conf-data" (by rfl)

/-! ### Claim C8: at most one active unexpired subscription -/

/-- Number of active, unexpired subscriptions a user holds. -/
def activeUnexpiredCount (subs : List Subscription) (uid : Nat) (now : Int) : Nat :=
  (activeSubsOf subs uid now).length

theorem activeSubsOf_append (l1 l2 : List Subscription) (uid : Nat) (now : Int) :
    activeSubsOf (l1 ++ l2) uid now
      = activeSubsOf l1 uid now ++ activeSubsOf l2 uid now := by
  unfold activeSubsOf
  exact List.filter_append _ _

theorem activeSubsOf_deactivate_self (subs : List Subscription) (uid : Nat)
    (now : Int) :
    activeSubsOf (deactivate_user_subscriptions subs uid) uid now = [] := by
  induction subs with
  | nil => rfl
  | cons s rest ih =>
      unfold deactivate_user_subscriptions at ih ⊢
      rw [List.map_cons]
      unfold activeSubsOf at ih ⊢
      by_cases h : s.user_id = uid ∧ s.is_active = true
      · rw [if_pos h, List.filter_cons_of_neg]
        · exact ih
        · simp
      · rw [if_neg h, List.filter_cons_of_neg]
        · exact ih
        · simp only [decide_eq_true_eq]
          intro hcon
          exact h ⟨hcon.1, hcon.2.1⟩

theorem activeSubsOf_deactivate_other (subs : List Subscription) (uid uid2 : Nat)
    (now : Int) (h : uid2 ≠ uid) :
    activeSubsOf (deactivate_user_subscriptions subs uid) uid2 now
      = activeSubsOf subs uid2 now := by
  induction subs with
  | nil => rfl
  | cons s rest ih =>
      unfold deactivate_user_subscriptions at ih ⊢
      rw [List.map_cons]
      unfold activeSubsOf at ih ⊢
      by_cases hs : s.user_id = uid ∧ s.is_active = true
      · rw [if_pos hs, List.filter_cons_of_neg, List.filter_cons_of_neg]
        · exact ih
        · simp only [decide_eq_true_eq]
          intro hcon
          exact h (hcon.1.symm.trans hs.1)
        · simp only [decide_eq_true_eq]
          intro hcon
          exact h (hcon.1.symm.trans hs.1)
      · rw [if_neg hs, List.filter_cons, List.filter_cons, ih]

theorem activeSubsOf_singleton_other (s : Subscription) (uid : Nat) (now : Int)
    (h : ¬s.user_id = uid) : activeSubsOf [s] uid now = [] := by
  unfold activeSubsOf
  rw [List.filter_cons_of_neg]
  · rfl
  · simp only [decide_eq_true_eq]
    intro hcon
    exact h hcon.1

theorem trial_plan_db_subscriptions (db : DB) :
    (get_or_create_trial_plan db).2.subscriptions = db.subscriptions := by
  unfold get_or_create_trial_plan
  rcases hplan : findPlanByCode db.plans "trial_10" with _ | p <;> rfl

/-- C8: both mutating subscription operations keep every user at no more
than one active unexpired subscription; a successful (newly recorded)
payment leaves the payer with exactly one active unexpired subscription
and every pre-existing row of that user inactive; and trial activation
refuses, changing nothing, when an active subscription exists. -/
theorem single_active_subscription_invariant (db : DB) (now : Int)
    (payload : TelegramPaymentSuccessIn) (tid : Int) :
    (∀ uid, activeUnexpiredCount db.subscriptions uid now ≤ 1 →
      activeUnexpiredCount
        (telegram_payment_success db now payload).2.subscriptions uid now ≤ 1) ∧
    (∀ user out, findUserByTg db payload.telegram_id = some user →
      findPaymentByCharge db.payments payload.telegram_payment_charge_id = none →
      (telegram_payment_success db now payload).1 = HandlerResult.ok out →
      activeUnexpiredCount
          (telegram_payment_success db now payload).2.subscriptions user.id now = 1 ∧
      (∀ s ∈ db.subscriptions, s.user_id = user.id →
        ∃ s2 ∈ (telegram_payment_success db now payload).2.subscriptions,
          s2.id = s.id ∧ s2.is_active = false)) ∧
    (∀ user s0, findUserByTg db tid = some user →
      has_had_trial db.subscriptions db.plans user.id = false →
      get_active_subscription db.subscriptions user.id now = some s0 →
      activate_trial db now tid
        = (HandlerResult.ok
            (TrialGrantResponse.mk false "active subscription exists" none none false),
           db)) ∧
    (∀ uid, activeUnexpiredCount db.subscriptions uid now ≤ 1 →
      activeUnexpiredCount
        (activate_trial db now tid).2.subscriptions uid now ≤ 1) := by
  refine ⟨?_, ?_, ?_, ?_⟩
  · intro uid hc
    unfold telegram_payment_success
    rcases hu : findUserByTg db payload.telegram_id with _ | user
    · exact hc
    · dsimp only
      rcases hp : findPaymentByCharge db.payments payload.telegram_payment_charge_id
        with _ | q
      · dsimp only
        rcases hpc : parsePlanCode payload.invoice_payload with e | code
        · exact hc
        · dsimp only
          rcases hpl : findPlanByCode db.plans code with _ | plan
          · exact hc
          · try dsimp only
            by_cases hact : plan.is_active = false
            · rw [if_pos hact]; exact hc
            · rw [if_neg hact]
              by_cases hamt : (1 : Int) < |plan.price_stars - payload.amount|
              · rw [if_pos hamt]; exact hc
              · rw [if_neg hamt]
                unfold activeUnexpiredCount
                try dsimp only
                rw [activeSubsOf_append, List.length_append]
                by_cases huid : uid = user.id
                · subst huid
                  rw [activeSubsOf_deactivate_self]
                  have hle := List.length_filter_le
                    (fun s : Subscription =>
                      decide (s.user_id = user.id ∧ s.is_active = true ∧
                        now ≤ s.ends_at))
                  simpa [activeSubsOf] using hle _
                · rw [activeSubsOf_deactivate_other _ _ _ _ huid,
                    activeSubsOf_singleton_other]
                  · simpa using hc
                  · intro hcon
                    exact huid hcon.symm
      · exact hc
  · intro user out hu hp hok
    unfold telegram_payment_success at hok ⊢
    rw [hu, hp] at hok ⊢
    dsimp only at hok ⊢
    rcases hpc : parsePlanCode payload.invoice_payload with e | code
    · rw [hpc] at hok
      simp at hok
    · rw [hpc] at hok
      dsimp only at hok ⊢
      rcases hpl : findPlanByCode db.plans code with _ | plan
      · rw [hpl] at hok
        simp at hok
      · rw [hpl] at hok
        dsimp only at hok ⊢
        by_cases hact : plan.is_active = false
        · rw [if_pos hact] at hok; simp at hok
        · rw [if_neg hact] at hok ⊢
          by_cases hamt : (1 : Int) < |plan.price_stars - payload.amount|
          · rw [if_pos hamt] at hok; simp at hok
          · rw [if_neg hamt] at hok ⊢
            constructor
            · unfold activeUnexpiredCount
              try dsimp only
              rw [activeSubsOf_append, activeSubsOf_deactivate_self]
              have hle : now ≤ now + (plan.duration_days : Int) * daySecs := by
                have hnn : (0 : Int) ≤ (plan.duration_days : Int) * daySecs :=
                  mul_nonneg (Int.natCast_nonneg _) (by norm_num [daySecs])
                omega
              simp [activeSubsOf, hle]
            · intro s hs hsu
              refine ⟨(if s.user_id = user.id ∧ s.is_active = true then
                  { s with is_active := false } else s), ?_, ?_, ?_⟩
              · apply List.mem_append_left
                exact List.mem_map.mpr ⟨s, hs, rfl⟩
              · split <;> rfl
              · by_cases hact2 : s.is_active = true
                · rw [if_pos ⟨hsu, hact2⟩]
                · rw [if_neg (fun hcon => hact2 hcon.2)]
                  simpa using hact2
  · intro user s0 hu hht hga
    unfold activate_trial
    rw [hu]
    simp [hht, hga]
  · intro uid hc
    unfold activate_trial
    rcases hu : findUserByTg db tid with _ | user2
    · exact hc
    · dsimp only
      cases hht : has_had_trial db.subscriptions db.plans user2.id
      · rw [if_neg (by simp)]
        rcases hga : get_active_subscription db.subscriptions user2.id now with _ | s0
        · rw [if_neg (by simp [hga])]
          unfold activeUnexpiredCount
          try dsimp only
          rw [trial_plan_db_subscriptions, activeSubsOf_append, List.length_append]
          by_cases huid : uid = user2.id
          · subst huid
            have hz : activeSubsOf db.subscriptions user2.id now = [] :=
              (get_active_subscription_none db.subscriptions user2.id now).mp hga
            rw [hz]
            have hle := List.length_filter_le
              (fun s : Subscription =>
                decide (s.user_id = user2.id ∧ s.is_active = true ∧
                  now ≤ s.ends_at))
            simpa [activeSubsOf] using hle _
          · rw [activeSubsOf_singleton_other]
            · simpa using hc
            · intro hcon
              exact huid hcon.symm
        · rw [if_pos (by simp [hga])]
          exact hc
      · rw [if_pos rfl]
        exact hc

/-- C8 witness: a concrete successful payment leaves exactly one active
unexpired subscription, and trial activation refuses while it is active. -/
theorem single_active_subscription_invariant_witness :
    activeUnexpiredCount
        (telegram_payment_success
          (DB.mk [User.mk 1 42 none none none none false false]
            [SubscriptionPlan.mk 2 "m1" "Month" 30 69 false true 0 (some 1)]
            [Subscription.mk 3 1 2 none 0 100 true false "stars"] [] [] 9)
          0
          (TelegramPaymentSuccessIn.mk 42 "XTR" 69 "vpn_plan:m1:42:1" "chg1"
            none)).2.subscriptions 1 0 = 1 ∧
    activate_trial
        (DB.mk [User.mk 1 42 none none none none false false]
          [SubscriptionPlan.mk 2 "m1" "Month" 30 69 false true 0 (some 1)]
          [Subscription.mk 3 1 2 none 0 100 true false "stars"] [] [] 9)
        0 42
      = (HandlerResult.ok
          (TrialGrantResponse.mk false "active subscription exists" none none false),
         DB.mk [User.mk 1 42 none none none none false false]
          [SubscriptionPlan.mk 2 "m1" "Month" 30 69 false true 0 (some 1)]
          [Subscription.mk 3 1 2 none 0 100 true false "stars"] [] [] 9) := by
  have h := single_active_subscription_invariant
    (DB.mk [User.mk 1 42 none none none none false false]
      [SubscriptionPlan.mk 2 "m1" "Month" 30 69 false true 0 (some 1)]
      [Subscription.mk 3 1 2 none 0 100 true false "stars"] [] [] 9)
    0
    (TelegramPaymentSuccessIn.mk 42 "XTR" 69 "vpn_plan:m1:42:1" "chg1" none)
    42
  refine ⟨(h.2.1 (User.mk 1 42 none none none none false false)
      (TelegramPaymentSuccessOut.mk true "payment recorded" 42 (some 10) (some 9)
        (some (0 + 30 * daySecs)) (some "m1") (some "Month"))
      (by rfl) (by rfl) (by decide)).1,
    h.2.2.1 (User.mk 1 42 none none none none false false)
      (Subscription.mk 3 1 2 none 0 100 true false "stars")
      (by rfl) (by rfl) (by decide)⟩

/-! ### Claims C4, C5, C9: create_vpn_peer behaviour -/

theorem create_vpn_peer_core_spec (stg : AppSettings) (wg : WGCfg) (db1 : DB)
    (user : User) (now : Int) (payload : PeerCreateRequest) (trace : List HResp) :
    (∀ s d, (create_vpn_peer_core stg wg db1 user now payload trace).1
        = HandlerResult.httpError s d →
      (create_vpn_peer_core stg wg db1 user now payload trace).2.1 = db1 ∧
      (s = 403 ∨ s = 409 ∨ (s = 502 ∧ d = wgHint))) ∧
    (∀ out, (create_vpn_peer_core stg wg db1 user now payload trace).1
        = HandlerResult.ok out →
      pyTrim out.config ≠ "" ∧
      ((create_vpn_peer_core stg wg db1 user now payload trace).2.1 = db1 ∨
       ∃ pr, (create_vpn_peer_core stg wg db1 user now payload trace).2.1.peers
           = db1.peers ++ [pr] ∧ pr.is_active = true ∧
         pr.wg_client_id = out.client_id ∧ pr.client_name = out.client_name)) ∧
    ((create_vpn_peer_core stg wg db1 user now payload trace).2.2 = true ↔
      (create_vpn_peer_core stg wg db1 user now payload trace).1
        = HandlerResult.httpError 502 wgHint) := by
  unfold create_vpn_peer_core
  rcases hga : get_active_subscription db1.subscriptions user.id now with _ | sub
  · refine ⟨?_, ?_, ?_⟩
    · intro s d heq
      cases heq
      exact ⟨rfl, Or.inl rfl⟩
    · intro out heq
      simp at heq
    · constructor <;> intro h <;> simp [wgHint, noSubDetail] at h
  · try dsimp only
    cases hpi : (match findPlanById db1.plans sub.plan_id with
        | some p => p.is_active == false
        | none => false : Bool)
    · rw [if_neg (by simp)]
      try dsimp only
      rcases henf : enforce_device_limit db1.plans db1.peers user.id
          (pyOr payload.location_code stg.default_location_code) sub with _ | detail
      · try dsimp only
        rcases hep : findExistingPeer db1.peers user.id
            (pyOr payload.location_code stg.default_location_code) with _ | ep
        · try dsimp only
          rcases hcg : (createAndGetConfig wg
              (buildClientName user payload
                (pyOr payload.location_code stg.default_location_code) now)
              (WGState.mk trace [])).1 with e | pair
          · refine ⟨?_, ?_, ?_⟩
            · intro s d heq
              cases heq
              exact ⟨rfl, Or.inr (Or.inr ⟨rfl, rfl⟩)⟩
            · intro out heq
              simp at heq
            · simp
          · obtain ⟨cid, cfg⟩ := pair
            refine ⟨?_, ?_, ?_⟩
            · intro s d heq
              simp at heq
            · intro out heq
              cases heq
              refine ⟨(createAndGetConfig_ok wg _ _ cid cfg hcg).1, Or.inr ?_⟩
              exact ⟨_, rfl, rfl, rfl, rfl⟩
            · constructor <;> intro h <;> simp at h
        · try dsimp only
          rcases hwg : (wgGetConfigRun wg ep.wg_client_id (WGState.mk trace [])).1
              with e | cfgText
          · refine ⟨?_, ?_, ?_⟩
            · intro s d heq
              cases heq
              exact ⟨rfl, Or.inr (Or.inr ⟨rfl, rfl⟩)⟩
            · intro out heq
              simp at heq
            · simp
          · try dsimp only
            by_cases ht : pyTrim cfgText = ""
            · rw [if_pos ht]
              refine ⟨?_, ?_, ?_⟩
              · intro s d heq
                cases heq
                exact ⟨rfl, Or.inr (Or.inr ⟨rfl, rfl⟩)⟩
              · intro out heq
                simp at heq
              · simp
            · rw [if_neg ht]
              refine ⟨?_, ?_, ?_⟩
              · intro s d heq
                simp at heq
              · intro out heq
                cases heq
                exact ⟨ht, Or.inl rfl⟩
              · constructor <;> intro h <;> simp at h
      · refine ⟨?_, ?_, ?_⟩
        · intro s d heq
          cases heq
          exact ⟨rfl, Or.inr (Or.inl rfl)⟩
        · intro out heq
          simp at heq
        · constructor <;> intro h <;> simp at h
    · rw [if_pos rfl]
      refine ⟨?_, ?_, ?_⟩
      · intro s d heq
        cases heq
        exact ⟨rfl, Or.inl rfl⟩
      · intro out heq
        simp at heq
      · constructor <;> intro h <;> simp [wgHint, planOffDetail] at h

/-- C9: peer creation is atomic with respect to the database: every error
outcome (including every WG-Easy failure) leaves the stored peers exactly
as they were, and a success either re-serves an existing peer (peers
unchanged) or appends exactly one active row after a nonempty
configuration was obtained. -/
theorem peer_create_atomic (stg : AppSettings) (wg : WGCfg) (db : DB) (now : Int)
    (payload : PeerCreateRequest) (trace : List HResp) :
    (∀ s d, (create_vpn_peer stg wg db now payload trace).1
        = HandlerResult.httpError s d →
      (create_vpn_peer stg wg db now payload trace).2.1.peers = db.peers) ∧
    (∀ out, (create_vpn_peer stg wg db now payload trace).1 = HandlerResult.ok out →
      pyTrim out.config ≠ "" ∧
      ((create_vpn_peer stg wg db now payload trace).2.1.peers = db.peers ∨
       ∃ pr, (create_vpn_peer stg wg db now payload trace).2.1.peers
           = db.peers ++ [pr] ∧ pr.is_active = true ∧
         pr.wg_client_id = out.client_id ∧ pr.client_name = out.client_name)) := by
  have hdef : create_vpn_peer stg wg db now payload trace
      = create_vpn_peer_core stg wg
          (get_or_create_user db
            { telegram_id := payload.telegram_id,
              username := payload.telegram_username, first_name := none,
              last_name := none, language_code := none }).2.2
          (get_or_create_user db
            { telegram_id := payload.telegram_id,
              username := payload.telegram_username, first_name := none,
              last_name := none, language_code := none }).1
          now payload trace := rfl
  have hpe := gocu_peers db
    { telegram_id := payload.telegram_id, username := payload.telegram_username,
      first_name := none, last_name := none, language_code := none }
  have spec := create_vpn_peer_core_spec stg wg
    (get_or_create_user db
      { telegram_id := payload.telegram_id, username := payload.telegram_username,
        first_name := none, last_name := none, language_code := none }).2.2
    (get_or_create_user db
      { telegram_id := payload.telegram_id, username := payload.telegram_username,
        first_name := none, last_name := none, language_code := none }).1
    now payload trace
  rw [hdef]
  constructor
  · intro s d heq
    rw [(spec.1 s d heq).1]
    exact hpe
  · intro out heq
    obtain ⟨h1, h2⟩ := spec.2.1 out heq
    refine ⟨h1, ?_⟩
    rcases h2 with h2 | ⟨pr, hp1, hp2, hp3, hp4⟩
    · left
      rw [h2]
      exact hpe
    · right
      refine ⟨pr, ?_, hp2, hp3, hp4⟩
      rw [hp1, hpe]

/-- C9 witness: a failing WG-Easy login (exhausted trace) leaves the peers
table unchanged. -/
theorem peer_create_atomic_witness :
    (create_vpn_peer (AppSettings.mk "eu-nl" "NL") (WGCfg.mk "http://wg" "pw" 15)
        (DB.mk [User.mk 1 42 none none none none false false]
          [SubscriptionPlan.mk 2 "m1" "Month" 30 69 false true 0 (some 1)]
          [Subscription.mk 3 1 2 none 0 100 true false "stars"] [] [] 9)
        0 (PeerCreateRequest.mk 42 none none none none) []).2.1.peers = [] :=
  (peer_create_atomic (AppSettings.mk "eu-nl" "NL") (WGCfg.mk "http://wg" "pw" 15)
      (DB.mk [User.mk 1 42 none none none none false false]
        [SubscriptionPlan.mk 2 "m1" "Month" 30 69 false true 0 (some 1)]
        [Subscription.mk 3 1 2 none 0 100 true false "stars"] [] [] 9)
      0 (PeerCreateRequest.mk 42 none none none none) []).1 502 wgHint (by decide)

/-- C5: a WG-Easy failure during peer creation is logged exactly when the
response is the fixed generic 502 hint, and every error response of the
endpoint is a 403, a 409, or that one fixed 502 hint — never the raw
WG-Easy error; a logged WG-Easy failure is never a success. -/
theorem wg_failure_logged_and_generic (stg : AppSettings) (wg : WGCfg) (db : DB)
    (now : Int) (payload : PeerCreateRequest) (trace : List HResp) :
    ((create_vpn_peer stg wg db now payload trace).2.2 = true ↔
      (create_vpn_peer stg wg db now payload trace).1
        = HandlerResult.httpError 502 wgHint) ∧
    (∀ s d, (create_vpn_peer stg wg db now payload trace).1
        = HandlerResult.httpError s d →
      s = 403 ∨ s = 409 ∨ (s = 502 ∧ d = wgHint)) := by
  have spec := create_vpn_peer_core_spec stg wg
    (get_or_create_user db
      { telegram_id := payload.telegram_id, username := payload.telegram_username,
        first_name := none, last_name := none, language_code := none }).2.2
    (get_or_create_user db
      { telegram_id := payload.telegram_id, username := payload.telegram_username,
        first_name := none, last_name := none, language_code := none }).1
    now payload trace
  exact ⟨spec.2.2, fun s d heq => (spec.1 s d heq).2⟩

/-- C5 witness: with WG-Easy unreachable (exhausted trace) the endpoint
logs the failure and returns the fixed 502 hint. -/
theorem wg_failure_logged_and_generic_witness :
    (create_vpn_peer (AppSettings.mk "eu-nl" "NL") (WGCfg.mk "http://wg" "pw" 15)
        (DB.mk [User.mk 1 42 none none none none false false]
          [SubscriptionPlan.mk 2 "m1" "Month" 30 69 false true 0 (some 1)]
          [Subscription.mk 3 1 2 none 0 100 true false "stars"] [] [] 9)
        0 (PeerCreateRequest.mk 42 none none none none) []).1
      = HandlerResult.httpError 502 wgHint :=
  (wg_failure_logged_and_generic (AppSettings.mk "eu-nl" "NL")
      (WGCfg.mk "http://wg" "pw" 15)
      (DB.mk [User.mk 1 42 none none none none false false]
        [SubscriptionPlan.mk 2 "m1" "Month" 30 69 false true 0 (some 1)]
        [Subscription.mk 3 1 2 none 0 100 true false "stars"] [] [] 9)
      0 (PeerCreateRequest.mk 42 none none none none) []).1.mp (by decide)

theorem enforce_limit_violation (plans : List SubscriptionPlan)
    (peers : List VpnPeer) (uid : Nat) (loc : String) (sub : Subscription)
    (plan : SubscriptionPlan) (m : Nat)
    (hplan : findPlanById plans sub.plan_id = some plan)
    (hm : plan.max_devices = some m) (hm0 : 0 < m)
    (hcnt : m ≤ (peers.filter
      (fun q => decide (q.user_id = uid ∧ q.is_active = true))).length)
    (hnoloc : peers.any (fun q =>
      decide (q.user_id = uid ∧ q.location_code = loc ∧ q.is_active = true)) = false) :
    enforce_device_limit plans peers uid loc sub = some (limitDetail m) := by
  unfold enforce_device_limit
  rw [hplan]
  dsimp only
  rw [hm]
  dsimp only
  rw [if_neg (Nat.pos_iff_ne_zero.mp hm0)]
  dsimp only
  rw [hnoloc]
  rw [if_neg (by simp)]
  rw [if_pos hcnt]

theorem enforce_limit_pass_in_location (plans : List SubscriptionPlan)
    (peers : List VpnPeer) (uid : Nat) (loc : String) (sub : Subscription)
    (hin : peers.any (fun q =>
      decide (q.user_id = uid ∧ q.location_code = loc ∧ q.is_active = true)) = true) :
    enforce_device_limit plans peers uid loc sub = none := by
  unfold enforce_device_limit
  rcases hplan : findPlanById plans sub.plan_id with _ | p
  · rfl
  · dsimp only
    rcases hm : p.max_devices with _ | m
    · rfl
    · dsimp only
      by_cases hz : m = 0
      · rw [if_pos hz]
      · rw [if_neg hz]
        dsimp only
        rw [hin, if_pos rfl]

theorem findExistingPeer_any (peers : List VpnPeer) (uid : Nat) (loc : String)
    (ep : VpnPeer) (hep : findExistingPeer peers uid loc = some ep) :
    peers.any (fun q =>
      decide (q.user_id = uid ∧ q.location_code = loc ∧ q.is_active = true)) = true := by
  unfold findExistingPeer at hep
  refine List.any_eq_true.mpr ⟨ep, List.mem_of_find?_eq_some hep, ?_⟩
  have hpred := List.find?_some hep
  simpa using hpred

theorem core_limit_409 (stg : AppSettings) (wg : WGCfg) (db1 : DB) (user : User)
    (now : Int) (payload : PeerCreateRequest) (trace : List HResp)
    (sub : Subscription) (plan : SubscriptionPlan) (detail : String)
    (hga : get_active_subscription db1.subscriptions user.id now = some sub)
    (hplan : findPlanById db1.plans sub.plan_id = some plan)
    (hpa : plan.is_active = true)
    (henf : enforce_device_limit db1.plans db1.peers user.id
      (pyOr payload.location_code stg.default_location_code) sub = some detail) :
    create_vpn_peer_core stg wg db1 user now payload trace
      = (HandlerResult.httpError 409 detail, db1, false) := by
  unfold create_vpn_peer_core
  rw [hga]
  try dsimp only
  have hpi : (match findPlanById db1.plans sub.plan_id with
      | some p => p.is_active == false
      | none => false : Bool) = false := by
    rw [hplan]
    simp [hpa]
  rw [hpi, if_neg (by simp)]
  try dsimp only
  rw [henf]

theorem core_existing_ok (stg : AppSettings) (wg : WGCfg) (db1 : DB) (user : User)
    (now : Int) (payload : PeerCreateRequest) (trace : List HResp)
    (sub : Subscription) (plan : SubscriptionPlan) (ep : VpnPeer) (cfgText : String)
    (hga : get_active_subscription db1.subscriptions user.id now = some sub)
    (hplan : findPlanById db1.plans sub.plan_id = some plan)
    (hpa : plan.is_active = true)
    (hep : findExistingPeer db1.peers user.id
      (pyOr payload.location_code stg.default_location_code) = some ep)
    (hwg : (wgGetConfigRun wg ep.wg_client_id (WGState.mk trace [])).1
      = Except.ok cfgText)
    (ht : pyTrim cfgText ≠ "") :
    create_vpn_peer_core stg wg db1 user now payload trace
      = (HandlerResult.ok
          (PeerCreateResponse.mk ep.wg_client_id ep.client_name ep.location_code
            ep.location_name cfgText), db1, false) := by
  unfold create_vpn_peer_core
  rw [hga]
  try dsimp only
  have hpi : (match findPlanById db1.plans sub.plan_id with
      | some p => p.is_active == false
      | none => false : Bool) = false := by
    rw [hplan]
    simp [hpa]
  rw [hpi, if_neg (by simp)]
  try dsimp only
  rw [enforce_limit_pass_in_location db1.plans db1.peers user.id _ sub
    (findExistingPeer_any _ _ _ ep hep)]
  try dsimp only
  rw [hep]
  try dsimp only
  rw [hwg]
  try dsimp only
  rw [if_neg ht]

/-- C4: with max_devices set on the active plan, a user at the limit with
no active peer in the requested location gets HTTP 409 and no peer row;
a user with an active peer in the requested location gets that peer's
configuration back (when WG-Easy serves it nonempty), regardless of the
count, with no new row. -/
theorem device_limit_enforced (stg : AppSettings) (wg : WGCfg) (db : DB)
    (now : Int) (payload : PeerCreateRequest) (trace : List HResp)
    (user : User) (sub : Subscription) (plan : SubscriptionPlan) (m : Nat)
    (hu : findUserByTg db payload.telegram_id = some user)
    (hsub : get_active_subscription db.subscriptions user.id now = some sub)
    (hplan : findPlanById db.plans sub.plan_id = some plan)
    (hpa : plan.is_active = true)
    (hm : plan.max_devices = some m) (hm0 : 0 < m) :
    ((m ≤ (db.peers.filter
        (fun q => decide (q.user_id = user.id ∧ q.is_active = true))).length) →
      (db.peers.any (fun q => decide (q.user_id = user.id ∧
        q.location_code = pyOr payload.location_code stg.default_location_code ∧
        q.is_active = true)) = false) →
      (create_vpn_peer stg wg db now payload trace).1
        = HandlerResult.httpError 409 (limitDetail m) ∧
      (create_vpn_peer stg wg db now payload trace).2.1.peers = db.peers) ∧
    (∀ ep cfgText,
      findExistingPeer db.peers user.id
        (pyOr payload.location_code stg.default_location_code) = some ep →
      (wgGetConfigRun wg ep.wg_client_id (WGState.mk trace [])).1
        = Except.ok cfgText →
      pyTrim cfgText ≠ "" →
      (create_vpn_peer stg wg db now payload trace).1
        = HandlerResult.ok (PeerCreateResponse.mk ep.wg_client_id ep.client_name
            ep.location_code ep.location_name cfgText) ∧
      (create_vpn_peer stg wg db now payload trace).2.1.peers = db.peers) := by
  have hdef : create_vpn_peer stg wg db now payload trace
      = create_vpn_peer_core stg wg
          (get_or_create_user db
            ⟨payload.telegram_id, payload.telegram_username, none, none, none⟩).2.2
          (get_or_create_user db
            ⟨payload.telegram_id, payload.telegram_username, none, none, none⟩).1
          now payload trace := rfl
  have e_id : ((get_or_create_user db
      ⟨payload.telegram_id, payload.telegram_username, none, none, none⟩).1).id
      = user.id :=
    gocu_found_id db ⟨payload.telegram_id, payload.telegram_username, none, none,
      none⟩ user hu
  have hga : get_active_subscription
      (get_or_create_user db
        ⟨payload.telegram_id, payload.telegram_username, none, none, none⟩).2.2.subscriptions
      ((get_or_create_user db
        ⟨payload.telegram_id, payload.telegram_username, none, none, none⟩).1).id
      now = some sub := by
    rw [gocu_subs, e_id]
    exact hsub
  have hplan2 : findPlanById
      (get_or_create_user db
        ⟨payload.telegram_id, payload.telegram_username, none, none, none⟩).2.2.plans
      sub.plan_id = some plan := by
    rw [gocu_plans]
    exact hplan
  constructor
  · intro hcnt hnoloc
    have henf : enforce_device_limit
        (get_or_create_user db
          ⟨payload.telegram_id, payload.telegram_username, none, none, none⟩).2.2.plans
        (get_or_create_user db
          ⟨payload.telegram_id, payload.telegram_username, none, none, none⟩).2.2.peers
        ((get_or_create_user db
          ⟨payload.telegram_id, payload.telegram_username, none, none, none⟩).1).id
        (pyOr payload.location_code stg.default_location_code) sub
        = some (limitDetail m) := by
      rw [gocu_plans, gocu_peers, e_id]
      exact enforce_limit_violation db.plans db.peers user.id _ sub plan m
        hplan hm hm0 hcnt hnoloc
    rw [hdef, core_limit_409 stg wg _ _ now payload trace sub plan (limitDetail m)
      hga hplan2 hpa henf]
    exact ⟨rfl, gocu_peers db _⟩
  · intro ep cfgText hep hwg ht
    have hep2 : findExistingPeer
        (get_or_create_user db
          ⟨payload.telegram_id, payload.telegram_username, none, none, none⟩).2.2.peers
        ((get_or_create_user db
          ⟨payload.telegram_id, payload.telegram_username, none, none, none⟩).1).id
        (pyOr payload.location_code stg.default_location_code) = some ep := by
      rw [gocu_peers, e_id]
      exact hep
    rw [hdef, core_existing_ok stg wg _ _ now payload trace sub plan ep cfgText
      hga hplan2 hpa hep2 hwg ht]
    exact ⟨rfl, gocu_peers db _⟩

/-- C4 witness: a user at a 1-device limit is refused in a new location,
and re-served their existing peer in its own location. -/
theorem device_limit_enforced_witness :
    (create_vpn_peer (AppSettings.mk "eu-nl" "NL") (WGCfg.mk "http://wg" "pw" 15)
        (DB.mk [User.mk 1 42 none none none none false false]
          [SubscriptionPlan.mk 2 "m1" "Month" 30 69 false true 0 (some 1)]
          [Subscription.mk 3 1 2 none 0 100 true false "stars"]
          [VpnPeer.mk 4 1 "cidA" "dev" "eu-nl" "NL" true 0 none] [] 9)
        0 (PeerCreateRequest.mk 42 none none (some "us-ny") (some "NY")) []).1
      = HandlerResult.httpError 409 (limitDetail 1) ∧
    (create_vpn_peer (AppSettings.mk "eu-nl" "NL") (WGCfg.mk "http://wg" "pw" 15)
        (DB.mk [User.mk 1 42 none none none none false false]
          [SubscriptionPlan.mk 2 "m1" "Month" 30 69 false true 0 (some 1)]
          [Subscription.mk 3 1 2 none 0 100 true false "stars"]
          [VpnPeer.mk 4 1 "cidA" "dev" "eu-nl" "NL" true 0 none] [] 9)
        0 (PeerCreateRequest.mk 42 none none (some "eu-nl") (some "NL"))
        [HResp.http 200 "application/json" ""
          (JVal.jobj [("success", JVal.jb true)]),
         HResp.http 200 "text/plain" "conf-data" JVal.jnull]).1
      = HandlerResult.ok
          (PeerCreateResponse.mk "cidA" "dev" "eu-nl" "NL" "conf-data") := by
  constructor
  · exact ((device_limit_enforced (AppSettings.mk "eu-nl" "NL")
      (WGCfg.mk "http://wg" "pw" 15)
      (DB.mk [User.mk 1 42 none none none none false false]
        [SubscriptionPlan.mk 2 "m1" "Month" 30 69 false true 0 (some 1)]
        [Subscription.mk 3 1 2 none 0 100 true false "stars"]
        [VpnPeer.mk 4 1 "cidA" "dev" "eu-nl" "NL" true 0 none] [] 9)
      0 (PeerCreateRequest.mk 42 none none (some "us-ny") (some "NY")) []
      (User.mk 1 42 none none none none false false)
      (Subscription.mk 3 1 2 none 0 100 true false "stars")
      (SubscriptionPlan.mk 2 "m1" "Month" 30 69 false true 0 (some 1)) 1
      (by rfl) (by rfl) (by rfl) (by rfl) (by rfl) (by decide)).1
      (by decide) (by decide)).1
  · exact ((device_limit_enforced (AppSettings.mk "eu-nl" "NL")
      (WGCfg.mk "http://wg" "pw" 15)
      (DB.mk [User.mk 1 42 none none none none false false]
        [SubscriptionPlan.mk 2 "m1" "Month" 30 69 false true 0 (some 1)]
        [Subscription.mk 3 1 2 none 0 100 true false "stars"]
        [VpnPeer.mk 4 1 "cidA" "dev" "eu-nl" "NL" true 0 none] [] 9)
      0 (PeerCreateRequest.mk 42 none none (some "eu-nl") (some "NL"))
      [HResp.http 200 "application/json" ""
        (JVal.jobj [("success", JVal.jb true)]),
       HResp.http 200 "text/plain" "conf-data" JVal.jnull]
      (User.mk 1 42 none none none none false false)
      (Subscription.mk 3 1 2 none 0 100 true false "stars")
      (SubscriptionPlan.mk 2 "m1" "Month" 30 69 false true 0 (some 1)) 1
      (by rfl) (by rfl) (by rfl) (by rfl) (by rfl) (by decide)).2
      (VpnPeer.mk 4 1 "cidA" "dev" "eu-nl" "NL" true 0 none) "conf-data"
      (by rfl) (by rfl) (by decide)).1
